import Mathlib

/-!
Verification of `vello_bench` (benchmarking harness for the Vello renderers).

The development shallowly embeds the measurement engine
(`vello_bench_core/src/runner.rs`), the native and WebGL hybrid renderer
adapters (`vello_bench_core/src/renderer.rs`,
`vello_bench_wasm/src/webgl_renderer.rs`), the benchmark registries
(`benchmarks/vello_cpu.rs`, `benchmarks/scene_cpu.rs`), the GPU readback row
alignment and padding-strip logic (`renderer.rs::render_to_pixmap`,
`benchmarks/scene_hybrid.rs::into_rgba`, `scene_hybrid.rs::align_to`) and the
programmatic scenes (`vello_scenes/*`).

Timing and instrumentation are modelled operationally: the platform `Timer`
becomes a state `BState` holding an abstract clock, a count of invocations of
the benchmarked closure, and an ordered trace of instrumentation events.  The
abstract clock advances only when the benchmarked closure runs (the k-th
invocation overall takes `d k` abstract nanoseconds) and when
`wait_one_frame` runs (taking `p` abstract nanoseconds); the mark/measure
bookkeeping calls are instantaneous, exactly as the wasm Performance-API
timer treats them as timeline annotations rather than timed work.
-/

/-- Instrumentation / execution events observable in a benchmark run, in
program order.  `callF` is one invocation of the benchmarked closure `f`;
`calibrated` is the invocation of the `on_calibrated` callback. -/
inductive Event where
  | mark (name : String)
  | measureSpan (name startMark endMark : String)
  | clearMarks
  | clearMeasures
  | callF
  | waitOneFrame
  | calibrated
deriving DecidableEq, Repr

/-- Abstract timing environment: `d k` is the duration (ns) of the k-th
invocation of the benchmarked closure, `p` is the duration of one
`wait_one_frame` busy-wait (~16.67 ms on wasm, 0 on native where it is a
no-op). -/
structure TimerModel where
  d : Nat → Nat
  p : Nat

/-- Benchmark execution state: abstract clock, number of closure invocations
performed so far, and the emitted event trace. -/
structure BState where
  time : Nat
  calls : Nat
  trace : List Event
deriving Repr

/-- Initial state of a run: clock at zero, nothing executed or emitted. -/
def BState.init : BState := ⟨0, 0, []⟩

/-- `Timer::mark` — records a named performance mark (no-op on native). -/
def Timer.mark (name : String) (s : BState) : BState :=
  { s with trace := s.trace ++ [Event.mark name] }

/-- `Timer::measure_span` — records a named measure between two marks. -/
def Timer.measure_span (name startMark endMark : String) (s : BState) : BState :=
  { s with trace := s.trace ++ [Event.measureSpan name startMark endMark] }

/-- `Timer::clear_marks`. -/
def Timer.clear_marks (s : BState) : BState :=
  { s with trace := s.trace ++ [Event.clearMarks] }

/-- `Timer::clear_measures`. -/
def Timer.clear_measures (s : BState) : BState :=
  { s with trace := s.trace ++ [Event.clearMeasures] }

/-- One invocation of the benchmarked closure `f()`: advances the clock by
the duration of this (the `s.calls`-th) invocation. -/
def Timer.callF (tm : TimerModel) (s : BState) : BState :=
  { time := s.time + tm.d s.calls, calls := s.calls + 1,
    trace := s.trace ++ [Event.callF] }

/-- `Timer::wait_one_frame` — untimed (by the runner) busy-wait taking `p`
abstract nanoseconds of wall-clock time. -/
def Timer.wait_one_frame (tm : TimerModel) (s : BState) : BState :=
  { s with time := s.time + tm.p, trace := s.trace ++ [Event.waitOneFrame] }

/-- The `on_calibrated` callback passed to `run_with_timer`, invoked between
warmup and measurement; modelled as emitting a `calibrated` event. -/
def Timer.on_calibrated (s : BState) : BState :=
  { s with trace := s.trace ++ [Event.calibrated] }

/-- `runner.rs::MAX_MARKED_ITERS`: per-iteration marks are only emitted when
the total iteration count stays at or below this threshold. -/
def MAX_MARKED_ITERS : Nat := 10000

/-- `result.rs` is not part of the provided sources; per the spec,
"Statistics are computed from the accumulated elapsed time and iteration
count".  The claims under verification only concern which elapsed time and
iteration count the runner hands to the constructor, so `Statistics` records
exactly the constructor's two arguments. -/
structure Statistics where
  elapsed_ns : Nat
  iterations : Nat
deriving DecidableEq, Repr

/-- `Statistics::from_measurement(elapsed_ns, total_iters)`. -/
def Statistics.from_measurement (elapsed_ns : Nat) (iterations : Nat) : Statistics :=
  ⟨elapsed_ns, iterations⟩

/-- `BenchRunner { warmup, iterations }`. -/
structure BenchRunner where
  warmup : Nat
  iterations : Nat

/-- Sum of the durations of `k` consecutive closure invocations starting at
overall invocation index `c`: `d c + d (c+1) + ... + d (c+k-1)`. -/
def sumD (d : Nat → Nat) (c : Nat) : Nat → Nat
  | 0 => 0
  | k + 1 => d c + sumD d (c + 1) k

/-- `for _ in 0..n { f(); }` — n invocations of the closure in sequence
(used by `BenchRunner::warmup` and the bulk measurement loop). -/
def Timer.callN (tm : TimerModel) : Nat → BState → BState
  | 0, s => s
  | n + 1, s => Timer.callN tm n (Timer.callF tm s)

/-- `BenchRunner::measure` — bulk-timing measurement: times the entire loop
as a single span; no per-iteration marks are emitted. -/
def BenchRunner.measure (tm : TimerModel) (total_iters : Nat) (s : BState) :
    Statistics × BState :=
  let start := s.time
  let s1 := Timer.callN tm total_iters s
  let elapsed_ns := s1.time - start
  (Statistics.from_measurement elapsed_ns total_iters, s1)

/-- Mark name `format!("bench:{bench_id}:iter:{i}")`. -/
def iterStartName (benchId : String) (i : Nat) : String :=
  ("bench:" ++ benchId) ++ (":iter:" ++ toString i)

/-- Mark name `format!("bench:{bench_id}:iter:{i}:end")`. -/
def iterEndName (benchId : String) (i : Nat) : String :=
  ("bench:" ++ benchId) ++ ((":iter:" ++ toString i) ++ ":end")

/-- Measure name `format!("{bench_id} iter {i}")`. -/
def iterSpanName (benchId : String) (i : Nat) : String :=
  benchId ++ (" iter " ++ toString i)

/-- Loop body of `measure_per_iteration_with_frame_wait` at iteration `i`:
optional start mark, timed `f()`, optional end mark + measure span, and an
untimed frame wait between iterations (`i + 1 < total_iters`).  The
accumulator carries `total_ns` and the execution state. -/
def pifwStep (tm : TimerModel) (benchId : String) (emit : Bool) (totalIters i : Nat)
    (acc : Nat × BState) : Nat × BState :=
  let s0 := acc.2
  let s1 := if emit then Timer.mark (iterStartName benchId i) s0 else s0
  let iterStart := s1.time
  let s2 := Timer.callF tm s1
  let totalNs := acc.1 + (s2.time - iterStart)
  let s3 :=
    if emit then
      Timer.measure_span (iterSpanName benchId i) (iterStartName benchId i)
        (iterEndName benchId i) (Timer.mark (iterEndName benchId i) s2)
    else s2
  let s4 := if i + 1 < totalIters then Timer.wait_one_frame tm s3 else s3
  (totalNs, s4)

/-- `for i in 0..total_iters { ... }` of
`measure_per_iteration_with_frame_wait`, with `k` iterations remaining and
current index `i` (entered with `k = total_iters`, `i = 0`). -/
def pifwLoop (tm : TimerModel) (benchId : String) (emit : Bool) (totalIters : Nat) :
    Nat → Nat → Nat × BState → Nat × BState
  | 0, _, acc => acc
  | k + 1, i, acc =>
      pifwLoop tm benchId emit totalIters k (i + 1)
        (pifwStep tm benchId emit totalIters i acc)

/-- `BenchRunner::measure_per_iteration_with_frame_wait` — per-iteration
timing with an untimed frame wait between iterations. -/
def BenchRunner.measure_per_iteration_with_frame_wait (tm : TimerModel)
    (benchId : String) (totalIters : Nat) (s : BState) : Statistics × BState :=
  let emit : Bool := decide (totalIters ≤ MAX_MARKED_ITERS)
  let r := pifwLoop tm benchId emit totalIters totalIters 0 (0, s)
  (Statistics.from_measurement r.1 totalIters, r.2)

/-- Mark name `format!("bench:{id}:warmup:start")`. -/
def warmupStartName (id : String) : String := ("bench:" ++ id) ++ ":warmup:start"

/-- Mark name `format!("bench:{id}:warmup:end")`. -/
def warmupEndName (id : String) : String := ("bench:" ++ id) ++ ":warmup:end"

/-- Measure name `format!("{id} warm-up")`. -/
def warmupSpanName (id : String) : String := id ++ " warm-up"

/-- Mark name `format!("bench:{id}:measure:start")`. -/
def measureStartName (id : String) : String := ("bench:" ++ id) ++ ":measure:start"

/-- Mark name `format!("bench:{id}:measure:end")`. -/
def measureEndName (id : String) : String := ("bench:" ++ id) ++ ":measure:end"

/-- Measure name `format!("{id} measurement")`. -/
def measurementSpanName (id : String) : String := id ++ " measurement"

/-- `BenchRunner::run_with_timer`: clear stale marks/measures, warmup with
an aggregate span, `on_calibrated()`, then the measurement phase (bulk or
per-iteration according to `per_iteration`) bracketed by measure marks. -/
def BenchRunner.run_with_timer (br : BenchRunner) (tm : TimerModel) (id : String)
    (per_iteration : Bool) (s : BState) : Statistics × BState :=
  let s := Timer.clear_marks s
  let s := Timer.clear_measures s
  let s := Timer.mark (warmupStartName id) s
  let s := Timer.callN tm br.warmup s
  let s := Timer.mark (warmupEndName id) s
  let s := Timer.measure_span (warmupSpanName id) (warmupStartName id) (warmupEndName id) s
  let s := Timer.on_calibrated s
  let total_iters := br.iterations
  let s := Timer.mark (measureStartName id) s
  let r :=
    if per_iteration then
      BenchRunner.measure_per_iteration_with_frame_wait tm id total_iters s
    else
      BenchRunner.measure tm total_iters s
  let s := r.2
  let s := Timer.mark (measureEndName id) s
  let s := Timer.measure_span (measurementSpanName id) (measureStartName id) (measureEndName id) s
  (r.1, s)

/-- `BenchRunner::run` — bulk mode, no callback. -/
def BenchRunner.run (br : BenchRunner) (tm : TimerModel) (id : String) (s : BState) :
    Statistics × BState :=
  br.run_with_timer tm id false s

/-- `BenchRunner::run_with_frame_wait` — per-iteration mode. -/
def BenchRunner.run_with_frame_wait (br : BenchRunner) (tm : TimerModel) (id : String)
    (s : BState) : Statistics × BState :=
  br.run_with_timer tm id true s

/-!  ## Trace/clock characterisation of the measurement loops  -/

/-- Events emitted by one iteration of the per-iteration loop. -/
def pifwEvents (benchId : String) (emit : Bool) (totalIters i : Nat) : List Event :=
  (if emit then [Event.mark (iterStartName benchId i)] else [])
    ++ [Event.callF]
    ++ (if emit then
          [Event.mark (iterEndName benchId i),
           Event.measureSpan (iterSpanName benchId i) (iterStartName benchId i)
             (iterEndName benchId i)]
        else [])
    ++ (if i + 1 < totalIters then [Event.waitOneFrame] else [])

/-- Events emitted by the per-iteration loop with `k` iterations remaining
starting at index `i`. -/
def pifwTrace (benchId : String) (emit : Bool) (totalIters : Nat) : Nat → Nat → List Event
  | 0, _ => []
  | k + 1, i => pifwEvents benchId emit totalIters i ++ pifwTrace benchId emit totalIters k (i + 1)

/-- Number of frame waits performed by `k` iterations starting at index `i`
(one wait after every iteration except the last of the whole loop). -/
def waitCount (totalIters : Nat) : Nat → Nat → Nat
  | 0, _ => 0
  | k + 1, i => (if i + 1 < totalIters then 1 else 0) + waitCount totalIters k (i + 1)

/-- Full event trace of one `run_with_timer` invocation. -/
def runEvents (id : String) (warmup iterations : Nat) (per_iteration : Bool) : List Event :=
  [Event.clearMarks, Event.clearMeasures, Event.mark (warmupStartName id)]
    ++ List.replicate warmup Event.callF
    ++ [Event.mark (warmupEndName id),
        Event.measureSpan (warmupSpanName id) (warmupStartName id) (warmupEndName id),
        Event.calibrated, Event.mark (measureStartName id)]
    ++ (if per_iteration then
          pifwTrace id (decide (iterations ≤ MAX_MARKED_ITERS)) iterations iterations 0
        else List.replicate iterations Event.callF)
    ++ [Event.mark (measureEndName id),
        Event.measureSpan (measurementSpanName id) (measureStartName id) (measureEndName id)]

/-- `true` on the events that are closure invocations or frame waits. -/
def isCW : Event → Bool
  | Event.callF => true
  | Event.waitOneFrame => true
  | _ => false

/-- Alternating tail `waitOneFrame, callF, waitOneFrame, callF, ...` with `k`
wait/call pairs. -/
def cwRest : Nat → List Event
  | 0 => []
  | k + 1 => Event.waitOneFrame :: Event.callF :: cwRest k

/-- The call/wait skeleton of `k` measured iterations: a closure call, then
alternately one frame wait and one closure call. -/
def cwChain : Nat → List Event
  | 0 => []
  | k + 1 => Event.callF :: cwRest k

/-!  ## Renderer adapters (`renderer.rs`, `webgl_renderer.rs`)

The wgpu / WebGL devices, queues and textures are external services (out of
scope per the spec); the external `vello_hybrid::Scene` is modelled as its
construction dimensions (`Scene::new(w, h)` yields `width() = w`,
`height() = h`) plus an ordered log of the drawing commands delegated to it.
Rust panics (`panic!` / `unimplemented!`) are modelled as `none`. -/

/-- Opaque `kurbo::BezPath` handle. -/
structure BezPath where
  pathId : Nat
deriving DecidableEq, Repr

/-- `kurbo::Rect`; the `f64` sides are carried but never computed with. -/
structure KRect where
  x0 : Float
  y0 : Float
  x1 : Float
  y1 : Float

/-- Opaque `vello_common::mask::Mask` handle. -/
structure Mask where
  maskId : Nat
deriving DecidableEq, Repr

/-- Opaque `peniko::BlendMode` value. -/
structure BlendMode where
  mix : Nat
  compose : Nat
deriving DecidableEq, Repr

/-- Commands a renderer adapter forwards to its underlying scene. -/
inductive SceneCmd where
  | fillPath (p : BezPath)
  | strokePath (p : BezPath)
  | fillRect (r : KRect)
  | strokeRect (r : KRect)
  | pushLayer (hasClip hasBlend hasOpacity hasMask hasFilter : Bool)
  | pushClipLayer (p : BezPath)
  | popLayer
  | setStroke
  | setPaint
  | setTransform

/-- External `vello_hybrid::Scene` as observed through this crate. -/
structure Scene where
  width : Nat
  height : Nat
  cmds : List SceneCmd

/-- `vello_hybrid::Scene::new(width, height)`. -/
def Scene.new (width height : Nat) : Scene := ⟨width, height, []⟩

/-- Append one delegated command to the scene log. -/
def Scene.push (sc : Scene) (c : SceneCmd) : Scene := { sc with cmds := sc.cmds ++ [c] }

/-- Native wgpu `HybridRenderer` (renderer.rs): scene plus external GPU
resources (device, queue, texture — abstracted away). -/
structure HybridRenderer where
  scene : Scene

/-- `<HybridRenderer as Renderer>::new(width, height, num_threads, level, _)`:
`panic!("hybrid renderer doesn't support multi-threading")` when
`num_threads != 0`, otherwise builds the renderer around
`Scene::new(width, height)` (plus external wgpu setup). -/
def HybridRenderer.new (width height num_threads : Nat) : Option HybridRenderer :=
  if num_threads ≠ 0 then none
  else some ⟨Scene.new width height⟩

/-- `fn width(&self) -> u16 { self.scene.width() }` -/
def HybridRenderer.width (r : HybridRenderer) : Nat := r.scene.width

/-- `fn height(&self) -> u16 { self.scene.height() }` -/
def HybridRenderer.height (r : HybridRenderer) : Nat := r.scene.height

/-- `fn fill_path` — delegates to the scene. -/
def HybridRenderer.fill_path (r : HybridRenderer) (p : BezPath) : HybridRenderer :=
  ⟨r.scene.push (SceneCmd.fillPath p)⟩

/-- `fn stroke_path` — delegates to the scene. -/
def HybridRenderer.stroke_path (r : HybridRenderer) (p : BezPath) : HybridRenderer :=
  ⟨r.scene.push (SceneCmd.strokePath p)⟩

/-- `fn fill_rect` — delegates to the scene. -/
def HybridRenderer.fill_rect (r : HybridRenderer) (rect : KRect) : HybridRenderer :=
  ⟨r.scene.push (SceneCmd.fillRect rect)⟩

/-- `fn fill_blurred_rounded_rect(... ) { unimplemented!() }` -/
def HybridRenderer.fill_blurred_rounded_rect (_r : HybridRenderer) (_rect : KRect)
    (_radius _std_dev : Float) : Option HybridRenderer := none

/-- `fn push_clip_layer` — delegates to the scene. -/
def HybridRenderer.push_clip_layer (r : HybridRenderer) (p : BezPath) : HybridRenderer :=
  ⟨r.scene.push (SceneCmd.pushClipLayer p)⟩

/-- `fn push_blend_layer` — `scene.push_layer(None, Some(blend_mode), None, None, None)`. -/
def HybridRenderer.push_blend_layer (r : HybridRenderer) (_blend_mode : BlendMode) :
    HybridRenderer :=
  ⟨r.scene.push (SceneCmd.pushLayer false true false false false)⟩

/-- `fn push_mask_layer(... ) { unimplemented!() }` -/
def HybridRenderer.push_mask_layer (_r : HybridRenderer) (_mask : Mask) :
    Option HybridRenderer := none

/-- `fn pop_layer` — delegates to the scene. -/
def HybridRenderer.pop_layer (r : HybridRenderer) : HybridRenderer :=
  ⟨r.scene.push SceneCmd.popLayer⟩

/-- `fn set_mask(... ) { unimplemented!() }` -/
def HybridRenderer.set_mask (_r : HybridRenderer) (_mask : Mask) : Option HybridRenderer := none

/-- `fn set_blend_mode(... ) { unimplemented!() }` -/
def HybridRenderer.set_blend_mode (_r : HybridRenderer) (_blend_mode : BlendMode) :
    Option HybridRenderer := none

/-- WASM `WebGlHybridRenderer` (webgl_renderer.rs): a scene plus a borrowed
external `vello_hybrid::WebGlRenderer` (abstracted away). -/
structure WebGlHybridRenderer where
  scene : Scene

/-- `WebGlHybridRenderer::from_state(width, height, renderer)`. -/
def WebGlHybridRenderer.from_state (width height : Nat) : WebGlHybridRenderer :=
  ⟨Scene.new width height⟩

/-- `fn fill_blurred_rounded_rect(... ) { unimplemented!() }` -/
def WebGlHybridRenderer.fill_blurred_rounded_rect (_r : WebGlHybridRenderer) (_rect : KRect)
    (_radius _std_dev : Float) : Option WebGlHybridRenderer := none

/-- `fn push_mask_layer(... ) { unimplemented!() }` -/
def WebGlHybridRenderer.push_mask_layer (_r : WebGlHybridRenderer) (_mask : Mask) :
    Option WebGlHybridRenderer := none

/-- `fn set_mask(... ) { unimplemented!() }` -/
def WebGlHybridRenderer.set_mask (_r : WebGlHybridRenderer) (_mask : Mask) :
    Option WebGlHybridRenderer := none

/-- `fn set_blend_mode(... ) { unimplemented!() }` -/
def WebGlHybridRenderer.set_blend_mode (_r : WebGlHybridRenderer) (_blend_mode : BlendMode) :
    Option WebGlHybridRenderer := none

/-- `fn fill_rect` — delegates to the scene. -/
def WebGlHybridRenderer.fill_rect (r : WebGlHybridRenderer) (rect : KRect) :
    WebGlHybridRenderer :=
  ⟨r.scene.push (SceneCmd.fillRect rect)⟩

/-- `fn push_clip_layer` — delegates to the scene. -/
def WebGlHybridRenderer.push_clip_layer (r : WebGlHybridRenderer) (p : BezPath) :
    WebGlHybridRenderer :=
  ⟨r.scene.push (SceneCmd.pushClipLayer p)⟩

/-- `fn pop_layer` — delegates to the scene. -/
def WebGlHybridRenderer.pop_layer (r : WebGlHybridRenderer) : WebGlHybridRenderer :=
  ⟨r.scene.push SceneCmd.popLayer⟩

/-!  ## Benchmark registries (`benchmarks/vello_cpu.rs`, `benchmarks/scene_cpu.rs`)

`run` entry points return `Except String (Option ...)`: `.error msg` models a
Rust panic (an `expect`), `.ok none` the `None` early return of the `?`
lookup, and `.ok (some id)` a completed `BenchmarkResult` (abstracted to its
formatted id — the timing content is covered by the runner model above). -/

/-- `registry::BenchmarkInfo { id, category, name }`. -/
structure BenchmarkInfo where
  id : String
  category : String
  name : String
deriving DecidableEq, Repr

/-- `vello_scenes::VelloSceneInfo { name, width, height }`. -/
structure VelloSceneInfo where
  name : String
  width : Nat
  height : Nat
deriving DecidableEq, Repr

/-- `get_vello_scenes()` — metadata of the 24 programmatic scenes in
registration order (`register_vello_scenes!` in `vello_scenes/mod.rs`);
`FilledRects` is 1024x768 and every counted image scene is 1920x1080. -/
def get_vello_scenes : List VelloSceneInfo :=
  [⟨"filled_rects", 1024, 768⟩,
   ⟨"tiled_flowers_100", 1920, 1080⟩,
   ⟨"tiled_flowers_300", 1920, 1080⟩,
   ⟨"tiled_flowers_1000", 1920, 1080⟩,
   ⟨"tiled_flowers_10000", 1920, 1080⟩,
   ⟨"overlapping_images_100", 1920, 1080⟩,
   ⟨"overlapping_images_1000", 1920, 1080⟩,
   ⟨"overlapping_images_10000", 1920, 1080⟩,
   ⟨"clipped_image_cards_100", 1920, 1080⟩,
   ⟨"clipped_image_cards_1000", 1920, 1080⟩,
   ⟨"clipped_image_cards_10000", 1920, 1080⟩,
   ⟨"large_overlapping_images_100", 1920, 1080⟩,
   ⟨"large_overlapping_images_1000", 1920, 1080⟩,
   ⟨"large_overlapping_images_10000", 1920, 1080⟩,
   ⟨"rotated_images_100", 1920, 1080⟩,
   ⟨"rotated_images_1000", 1920, 1080⟩,
   ⟨"rotated_images_10000", 1920, 1080⟩,
   ⟨"image_cards_with_borders_100", 1920, 1080⟩,
   ⟨"image_cards_with_borders_1000", 1920, 1080⟩,
   ⟨"image_cards_with_borders_10000", 1920, 1080⟩,
   ⟨"mixed_image_and_vector_100", 1920, 1080⟩,
   ⟨"mixed_image_and_vector_1000", 1920, 1080⟩,
   ⟨"mixed_image_and_vector_10000", 1920, 1080⟩,
   ⟨"paths_and_images_100", 1920, 1080⟩]

/-- Type-erased state produced by `setup_scene`: `FilledRects` has unit
state, every image scene produces an `ImageGridState` (an uploaded image
handle). -/
inductive SetupState where
  | unitState
  | imageGrid
deriving DecidableEq, Repr

/-- `setup_scene(name, r)` — the generated match over registered scene names
(`register_vello_scenes!`); `None` for an unregistered name. -/
def setup_scene (name : String) : Option SetupState :=
  match name with
  | "filled_rects" => some SetupState.unitState
  | "tiled_flowers_100" => some SetupState.imageGrid
  | "tiled_flowers_300" => some SetupState.imageGrid
  | "tiled_flowers_1000" => some SetupState.imageGrid
  | "tiled_flowers_10000" => some SetupState.imageGrid
  | "overlapping_images_100" => some SetupState.imageGrid
  | "overlapping_images_1000" => some SetupState.imageGrid
  | "overlapping_images_10000" => some SetupState.imageGrid
  | "clipped_image_cards_100" => some SetupState.imageGrid
  | "clipped_image_cards_1000" => some SetupState.imageGrid
  | "clipped_image_cards_10000" => some SetupState.imageGrid
  | "large_overlapping_images_100" => some SetupState.imageGrid
  | "large_overlapping_images_1000" => some SetupState.imageGrid
  | "large_overlapping_images_10000" => some SetupState.imageGrid
  | "rotated_images_100" => some SetupState.imageGrid
  | "rotated_images_1000" => some SetupState.imageGrid
  | "rotated_images_10000" => some SetupState.imageGrid
  | "image_cards_with_borders_100" => some SetupState.imageGrid
  | "image_cards_with_borders_1000" => some SetupState.imageGrid
  | "image_cards_with_borders_10000" => some SetupState.imageGrid
  | "mixed_image_and_vector_100" => some SetupState.imageGrid
  | "mixed_image_and_vector_1000" => some SetupState.imageGrid
  | "mixed_image_and_vector_10000" => some SetupState.imageGrid
  | "paths_and_images_100" => some SetupState.imageGrid
  | _ => none

/-- `vello_cpu.rs::CATEGORY`. -/
def vello_cpu_CATEGORY : String := "vello_cpu"

/-- `vello_cpu.rs::list()`. -/
def vello_cpu_list : List BenchmarkInfo :=
  get_vello_scenes.map fun scene =>
    ⟨(vello_cpu_CATEGORY ++ "/") ++ scene.name, vello_cpu_CATEGORY, scene.name⟩

/-- `vello_cpu.rs::run(name, runner, level)`: find the scene by name in
`get_vello_scenes` (`?` returns `None`), construct the CPU renderer, run
`setup_scene(name, ..).expect("scene not found in setup")` (a panic when it
yields `None`), then run the benchmark. -/
def vello_cpu_run (name : String) : Except String (Option String) :=
  match get_vello_scenes.find? (fun s => s.name == name) with
  | none => Except.ok none
  | some _ =>
      match setup_scene name with
      | none => Except.error "scene not found in setup"
      | some _ => Except.ok (some ((vello_cpu_CATEGORY ++ "/") ++ name))

/-- `scenes.rs::SceneItem`: scene name plus parsed archive.  The archive is a
black box; `to_scene_ok` records whether `archive.to_scene(&mut ctx)` (run
inside `CpuSceneRenderer::new`) succeeds. -/
structure SceneItem where
  name : String
  to_scene_ok : Bool
  width : Nat
  height : Nat

/-- `scene_cpu.rs::CATEGORY`. -/
def scene_cpu_CATEGORY : String := "scene_cpu"

/-- `scene_cpu.rs::list()`: one entry per loaded scene.  The scene table
itself is produced at runtime from embedded archives (`get_scenes()`), so it
is a parameter. -/
def scene_cpu_list (scenes : List SceneItem) : List BenchmarkInfo :=
  scenes.map fun item =>
    ⟨(scene_cpu_CATEGORY ++ "/") ++ item.name, scene_cpu_CATEGORY, item.name⟩

/-- `scene_cpu.rs::run(name, runner, level)`: find the scene by name in
`get_scenes()` (`?` returns `None`), build `CpuSceneRenderer::new` (whose
`to_scene(..).expect(..)` panics when deserialisation fails), then run. -/
def scene_cpu_run (scenes : List SceneItem) (name : String) :
    Except String (Option String) :=
  match scenes.find? (fun s => s.name == name) with
  | none => Except.ok none
  | some item =>
      if item.to_scene_ok then Except.ok (some ((scene_cpu_CATEGORY ++ "/") ++ name))
      else Except.error "Failed to deserialize scene for CPU backend"

/-!  ## Programmatic scenes (`vello_scenes/filled_rects.rs`, `vello_scenes/images.rs`)

The scene draw functions are generic over the `Renderer` trait; they are
modelled as the sequence of trait calls they issue.  Geometry payloads are
`f64` values that never influence which calls are made, so commands carry no
payloads here.  The grid shape (`cols`, and for the tiled/rotated scenes also
`rows`) is computed in the source with `f64` `sqrt`/`ceil`; those results
enter the model as unconstrained parameters (`GridParams`), and the claims
are proved for every value of them — hence for whatever the float computation
produces on any backend / canvas size.  Nested row/column loops are flattened
into a single loop over `rows * cols` cells with the running element counter
`n`, which preserves the emitted command sequence exactly. -/

/-- One backend-generic `Renderer` trait call issued while drawing a scene. -/
inductive RCmd where
  | setTransform
  | setPaint
  | setStroke
  | fillRect
  | strokeRect
  | fillPath
  | strokePath
  | pushClipLayer
  | pushLayer
  | popLayer
deriving DecidableEq, Repr

/-- Float-derived grid shape oracle (see the section comment). -/
structure GridParams where
  cols : Nat
  rows : Nat
deriving DecidableEq, Repr

/-- `FilledRects::draw` — 12 rows x 16 cols of `set_paint` + `fill_rect`. -/
def filledRectsLoop : Nat → List RCmd
  | 0 => []
  | n + 1 => [RCmd.setPaint, RCmd.fillRect] ++ filledRectsLoop n

/-- `FilledRects::draw` (filled_rects.rs): fixed 16x12 grid. -/
def drawFilledRects : List RCmd := filledRectsLoop (16 * 12)

/-- Per-image commands of `draw_tiled_flowers`. -/
def tiledFlowersCell : List RCmd := [RCmd.setTransform, RCmd.setPaint, RCmd.fillRect]

/-- Grid loop of `draw_tiled_flowers`: on early return (`n >= count`) the
source emits `set_transform(IDENTITY)` and returns; after a normal loop exit
it emits the same trailing `set_transform`. -/
def tiledFlowersLoop (count : Nat) : Nat → Nat → List RCmd
  | 0, _ => [RCmd.setTransform]
  | cells + 1, n =>
      if count ≤ n then [RCmd.setTransform]
      else tiledFlowersCell ++ tiledFlowersLoop count cells (n + 1)

/-- `images.rs::draw_tiled_flowers(state, r, count)`. -/
def draw_tiled_flowers (rows cols count : Nat) : List RCmd :=
  tiledFlowersLoop count (rows * cols) 0

/-- `images.rs::draw_overlapping_images` body loop (`for i in 0..count`). -/
def overlappingLoop : Nat → List RCmd
  | 0 => []
  | n + 1 => [RCmd.setTransform, RCmd.setPaint, RCmd.fillRect] ++ overlappingLoop n

/-- `images.rs::draw_overlapping_images(state, r, count)`. -/
def draw_overlapping_images (count : Nat) : List RCmd :=
  overlappingLoop count ++ [RCmd.setTransform]

/-- Per-card commands of `draw_clipped_image_cards`: clip layer around the
image fill, then a stroked border. -/
def clippedCardCmds : List RCmd :=
  [RCmd.pushClipLayer, RCmd.setTransform, RCmd.setPaint, RCmd.fillRect,
   RCmd.setTransform, RCmd.popLayer, RCmd.setStroke, RCmd.setPaint, RCmd.strokePath]

/-- Grid loop of `draw_clipped_image_cards` (early return emits nothing). -/
def clippedCardsLoop (count : Nat) : Nat → Nat → List RCmd
  | 0, _ => []
  | cells + 1, n =>
      if count ≤ n then []
      else clippedCardCmds ++ clippedCardsLoop count cells (n + 1)

/-- `images.rs::draw_clipped_image_cards(state, r, count)`;
`rows = (count + cols - 1) / cols` exactly as in the source. -/
def draw_clipped_image_cards (cols count : Nat) : List RCmd :=
  clippedCardsLoop count (((count + cols - 1) / cols) * cols) 0

/-- `images.rs::draw_large_overlapping_images` body loop. -/
def largeOverlappingLoop : Nat → List RCmd
  | 0 => []
  | n + 1 => [RCmd.setTransform, RCmd.setPaint, RCmd.fillRect] ++ largeOverlappingLoop n

/-- `images.rs::draw_large_overlapping_images(state, r, count)`. -/
def draw_large_overlapping_images (count : Nat) : List RCmd :=
  largeOverlappingLoop count ++ [RCmd.setTransform]

/-- Per-image commands of `draw_rotated_images`. -/
def rotatedCell : List RCmd := [RCmd.setTransform, RCmd.setPaint, RCmd.fillRect]

/-- Grid loop of `draw_rotated_images` (early return emits the identity
`set_transform`, as does normal exit). -/
def rotatedLoop (count : Nat) : Nat → Nat → List RCmd
  | 0, _ => [RCmd.setTransform]
  | cells + 1, n =>
      if count ≤ n then [RCmd.setTransform]
      else rotatedCell ++ rotatedLoop count cells (n + 1)

/-- `images.rs::draw_rotated_images(state, r, count)`. -/
def draw_rotated_images (cols count : Nat) : List RCmd :=
  rotatedLoop count (((count + cols - 1) / cols) * cols) 0

/-- Per-card commands of `draw_image_cards_with_borders`: outer stroked
border, clip layer around the image fill, inner stroked highlight. -/
def borderCardCmds : List RCmd :=
  [RCmd.setStroke, RCmd.setPaint, RCmd.strokePath,
   RCmd.pushClipLayer, RCmd.setTransform, RCmd.setPaint, RCmd.fillRect,
   RCmd.setTransform, RCmd.popLayer,
   RCmd.setStroke, RCmd.setPaint, RCmd.strokePath]

/-- Grid loop of `draw_image_cards_with_borders`. -/
def borderCardsLoop (count : Nat) : Nat → Nat → List RCmd
  | 0, _ => []
  | cells + 1, n =>
      if count ≤ n then []
      else borderCardCmds ++ borderCardsLoop count cells (n + 1)

/-- `images.rs::draw_image_cards_with_borders(state, r, count)`. -/
def draw_image_cards_with_borders (cols count : Nat) : List RCmd :=
  borderCardsLoop count (((count + cols - 1) / cols) * cols) 0

/-- Even-index cell of `draw_mixed_image_and_vector`: image tile. -/
def mixedImageCell : List RCmd :=
  [RCmd.setTransform, RCmd.setPaint, RCmd.fillRect, RCmd.setTransform]

/-- Odd-index cell of `draw_mixed_image_and_vector`: coloured rect + border. -/
def mixedVectorCell : List RCmd :=
  [RCmd.setPaint, RCmd.fillRect, RCmd.setStroke, RCmd.setPaint, RCmd.strokeRect]

/-- Grid loop of `draw_mixed_image_and_vector`. -/
def mixedLoop (count : Nat) : Nat → Nat → List RCmd
  | 0, _ => []
  | cells + 1, n =>
      if count ≤ n then []
      else (if n % 2 = 0 then mixedImageCell else mixedVectorCell)
        ++ mixedLoop count cells (n + 1)

/-- `images.rs::draw_mixed_image_and_vector(state, r, count)`. -/
def draw_mixed_image_and_vector (cols count : Nat) : List RCmd :=
  mixedLoop count (((count + cols - 1) / cols) * cols) 0

/-- One random path of `draw_paths_and_images`: filled for even global
index, stroked for odd. -/
def pathCmds (globalIdx : Nat) : List RCmd :=
  if globalIdx % 2 = 0 then [RCmd.setPaint, RCmd.fillPath]
  else [RCmd.setStroke, RCmd.setPaint, RCmd.strokePath]

/-- One batch of `paths_per_batch` random paths (`for p in 0..paths_per_batch`). -/
def pathBatch (iter ppb : Nat) : List RCmd :=
  ((List.range ppb).map fun p => pathCmds (iter * ppb + p)).flatten

/-- `images.rs::draw_paths_and_images(state, r, iterations, paths_per_batch)`:
per round, one path batch then one image. -/
def draw_paths_and_images (iterations ppb : Nat) : List RCmd :=
  ((List.range iterations).map fun it =>
    pathBatch it ppb
      ++ [RCmd.setTransform, RCmd.setPaint, RCmd.fillRect, RCmd.setTransform]).flatten

/-- `vello_scenes/mod.rs::draw_scene::<R>(name, state, r)` — the generated
dispatch; the fixed per-scene counts come from the `counted_image_scene!`
registrations; an unknown name panics (`none`). -/
def draw_scene (gp : GridParams) (name : String) : Option (List RCmd) :=
  match name with
  | "filled_rects" => some drawFilledRects
  | "tiled_flowers_100" => some (draw_tiled_flowers gp.rows gp.cols 100)
  | "tiled_flowers_300" => some (draw_tiled_flowers gp.rows gp.cols 300)
  | "tiled_flowers_1000" => some (draw_tiled_flowers gp.rows gp.cols 1000)
  | "tiled_flowers_10000" => some (draw_tiled_flowers gp.rows gp.cols 10000)
  | "overlapping_images_100" => some (draw_overlapping_images 100)
  | "overlapping_images_1000" => some (draw_overlapping_images 1000)
  | "overlapping_images_10000" => some (draw_overlapping_images 10000)
  | "clipped_image_cards_100" => some (draw_clipped_image_cards gp.cols 100)
  | "clipped_image_cards_1000" => some (draw_clipped_image_cards gp.cols 1000)
  | "clipped_image_cards_10000" => some (draw_clipped_image_cards gp.cols 10000)
  | "large_overlapping_images_100" => some (draw_large_overlapping_images 100)
  | "large_overlapping_images_1000" => some (draw_large_overlapping_images 1000)
  | "large_overlapping_images_10000" => some (draw_large_overlapping_images 10000)
  | "rotated_images_100" => some (draw_rotated_images gp.cols 100)
  | "rotated_images_1000" => some (draw_rotated_images gp.cols 1000)
  | "rotated_images_10000" => some (draw_rotated_images gp.cols 10000)
  | "image_cards_with_borders_100" => some (draw_image_cards_with_borders gp.cols 100)
  | "image_cards_with_borders_1000" => some (draw_image_cards_with_borders gp.cols 1000)
  | "image_cards_with_borders_10000" => some (draw_image_cards_with_borders gp.cols 10000)
  | "mixed_image_and_vector_100" => some (draw_mixed_image_and_vector gp.cols 100)
  | "mixed_image_and_vector_1000" => some (draw_mixed_image_and_vector gp.cols 1000)
  | "mixed_image_and_vector_10000" => some (draw_mixed_image_and_vector gp.cols 10000)
  | "paths_and_images_100" => some (draw_paths_and_images 10 100)
  | _ => none

/-- `true` on layer-opening commands (`push_clip_layer` / `push_layer`). -/
def isPush : RCmd → Bool
  | RCmd.pushClipLayer => true
  | RCmd.pushLayer => true
  | _ => false

/-- `true` on `pop_layer`. -/
def isPop : RCmd → Bool
  | RCmd.popLayer => true
  | _ => false

/-- Number of layer-push commands in a command list. -/
def countPush (l : List RCmd) : Nat := (l.filter isPush).length

/-- Number of `pop_layer` commands in a command list. -/
def countPop (l : List RCmd) : Nat := (l.filter isPop).length

/-- Executable balance check: scans the list keeping the open-layer depth,
failing on a pop at depth zero. -/
def depthOk : List RCmd → Nat → Bool
  | [], _ => true
  | c :: rest, dep =>
      if isPop c then
        match dep with
        | 0 => false
        | d + 1 => depthOk rest d
      else depthOk rest (dep + (if isPush c then 1 else 0))

/-- Layer discipline of a command sequence: pushes and pops are equal in
number and no prefix closes more layers than it has opened. -/
def LayerBalanced (l : List RCmd) : Prop :=
  countPush l = countPop l ∧ ∀ n, countPop (l.take n) ≤ countPush (l.take n)

/-!  ## GPU pixel readback (`renderer.rs::render_to_pixmap`,
`scene_hybrid.rs::into_rgba` / `align_to`)

Byte buffers are lists of byte values; `u32` arithmetic carries an explicit
`% 2^32` wherever the Rust operation could wrap. -/

/-- `2^32`, the modulus of Rust `u32` arithmetic. -/
def U32_MOD : Nat := 4294967296

/-- `scene_hybrid.rs::align_to(value, alignment)`:
`(value + alignment - 1) / alignment * alignment` on `u32`, with the
release-mode wrapping of `+`/`-`/`*` made explicit. -/
def align_to (value alignment : Nat) : Nat :=
  ((value + alignment) % U32_MOD + U32_MOD - 1) % U32_MOD / alignment * alignment % U32_MOD

/-- `u32::next_multiple_of(rhs)` (Rust core, used in
`renderer.rs::render_to_pixmap` as `(width * 4).next_multiple_of(256)`):
the smallest multiple of `rhs` at least `self`; panics (`none`) when
`rhs = 0` (division by zero) or when the result overflows `u32`. -/
def next_multiple_of (v m : Nat) : Option Nat :=
  if m = 0 then none
  else
    let r := v % m
    let out := if r = 0 then v else v + (m - r)
    if out < U32_MOD then some out else none

/-- `slice::chunks_exact(k)`: the complete `k`-length chunks in order; a
shorter trailing remainder is not yielded (and `k = 0` yields nothing —
the Rust call would panic, but it is only used with `k > 0`). -/
def chunksExact {α : Type} (k : Nat) (l : List α) : List (List α) :=
  if hkl : 0 < k ∧ k ≤ l.length then
    l.take k :: chunksExact k (l.drop k)
  else []
termination_by l.length
decreasing_by
  simp only [List.length_drop]
  omega

/-- The copy loop of `HybridRenderer::render_to_pixmap`: zip the mapped
staging buffer's `bytes_per_row` chunks with the pixmap's `width * 4`-byte
rows, and overwrite each pixmap row with `row[0 .. width * 4]` of the padded
source row; any pixmap tail not covered by a full zipped chunk pair is left
untouched. -/
def renderToPixmapCopy (mapped pixmapData : List Nat) (bytesPerRow rowBytes : Nat) :
    List Nat :=
  let pairs := (chunksExact bytesPerRow mapped).zip (chunksExact rowBytes pixmapData)
  (pairs.map fun rb => rb.1.take rowBytes).flatten
    ++ pixmapData.drop (pairs.length * rowBytes)

/-- The copy loop of `HybridSceneRenderer::into_rgba` (scene_hybrid.rs):
`for row in 0..height { rgba.extend_from_slice(&data[start..start + row_bytes]) }`
with `start = row * bytes_per_row` (in-bounds under the length hypotheses of
the theorems below, so `take`/`drop` truncation never occurs). -/
def intoRgbaStripRows (data : List Nat) (height bytesPerRow rowBytes : Nat) : List Nat :=
  (List.range height).foldl
    (fun acc row => acc ++ ((data.drop (row * bytesPerRow)).take rowBytes)) []

lemma pifwStep_snd_trace (tm : TimerModel) (benchId : String) (emit : Bool)
    (totalIters i tns : Nat) (s : BState) :
    (pifwStep tm benchId emit totalIters i (tns, s)).2.trace =
      s.trace ++ pifwEvents benchId emit totalIters i := by
  simp only [pifwStep, pifwEvents, Timer.mark, Timer.measure_span, Timer.callF,
    Timer.wait_one_frame]
  split <;> split <;> simp

lemma pifwStep_fst (tm : TimerModel) (benchId : String) (emit : Bool)
    (totalIters i tns : Nat) (s : BState) :
    (pifwStep tm benchId emit totalIters i (tns, s)).1 = tns + tm.d s.calls := by
  simp only [pifwStep, Timer.mark, Timer.measure_span, Timer.callF, Timer.wait_one_frame]
  split <;> simp

lemma pifwStep_snd_calls (tm : TimerModel) (benchId : String) (emit : Bool)
    (totalIters i tns : Nat) (s : BState) :
    (pifwStep tm benchId emit totalIters i (tns, s)).2.calls = s.calls + 1 := by
  simp only [pifwStep, Timer.mark, Timer.measure_span, Timer.callF, Timer.wait_one_frame]
  split <;> split <;> simp

lemma pifwStep_snd_time (tm : TimerModel) (benchId : String) (emit : Bool)
    (totalIters i tns : Nat) (s : BState) :
    (pifwStep tm benchId emit totalIters i (tns, s)).2.time =
      s.time + tm.d s.calls + (if i + 1 < totalIters then tm.p else 0) := by
  simp only [pifwStep, Timer.mark, Timer.measure_span, Timer.callF, Timer.wait_one_frame]
  split <;> split <;> simp

lemma pifwLoop_snd_trace (tm : TimerModel) (benchId : String) (emit : Bool)
    (totalIters : Nat) :
    ∀ (k i tns : Nat) (s : BState),
      (pifwLoop tm benchId emit totalIters k i (tns, s)).2.trace =
        s.trace ++ pifwTrace benchId emit totalIters k i := by
  intro k
  induction k with
  | zero => intro i tns s; simp [pifwLoop, pifwTrace]
  | succ k ih =>
      intro i tns s
      have hstep := pifwStep_snd_trace tm benchId emit totalIters i tns s
      simp only [pifwLoop, pifwTrace]
      rw [show pifwStep tm benchId emit totalIters i (tns, s) =
        ((pifwStep tm benchId emit totalIters i (tns, s)).1,
         (pifwStep tm benchId emit totalIters i (tns, s)).2) from rfl]
      rw [ih]
      rw [hstep, List.append_assoc]

lemma pifwLoop_snd_calls (tm : TimerModel) (benchId : String) (emit : Bool)
    (totalIters : Nat) :
    ∀ (k i tns : Nat) (s : BState),
      (pifwLoop tm benchId emit totalIters k i (tns, s)).2.calls = s.calls + k := by
  intro k
  induction k with
  | zero => intro i tns s; simp [pifwLoop]
  | succ k ih =>
      intro i tns s
      simp only [pifwLoop]
      rw [show pifwStep tm benchId emit totalIters i (tns, s) =
        ((pifwStep tm benchId emit totalIters i (tns, s)).1,
         (pifwStep tm benchId emit totalIters i (tns, s)).2) from rfl]
      rw [ih, pifwStep_snd_calls]
      omega

lemma pifwLoop_fst (tm : TimerModel) (benchId : String) (emit : Bool)
    (totalIters : Nat) :
    ∀ (k i tns : Nat) (s : BState),
      (pifwLoop tm benchId emit totalIters k i (tns, s)).1 =
        tns + sumD tm.d s.calls k := by
  intro k
  induction k with
  | zero => intro i tns s; simp [pifwLoop, sumD]
  | succ k ih =>
      intro i tns s
      simp only [pifwLoop, sumD]
      rw [show pifwStep tm benchId emit totalIters i (tns, s) =
        ((pifwStep tm benchId emit totalIters i (tns, s)).1,
         (pifwStep tm benchId emit totalIters i (tns, s)).2) from rfl]
      rw [ih, pifwStep_fst, pifwStep_snd_calls]
      omega

lemma pifwLoop_snd_time (tm : TimerModel) (benchId : String) (emit : Bool)
    (totalIters : Nat) :
    ∀ (k i tns : Nat) (s : BState),
      (pifwLoop tm benchId emit totalIters k i (tns, s)).2.time =
        s.time + sumD tm.d s.calls k + tm.p * waitCount totalIters k i := by
  intro k
  induction k with
  | zero => intro i tns s; simp [pifwLoop, sumD, waitCount]
  | succ k ih =>
      intro i tns s
      simp only [pifwLoop, sumD, waitCount]
      rw [show pifwStep tm benchId emit totalIters i (tns, s) =
        ((pifwStep tm benchId emit totalIters i (tns, s)).1,
         (pifwStep tm benchId emit totalIters i (tns, s)).2) from rfl]
      rw [ih, pifwStep_snd_time, pifwStep_snd_calls]
      ring_nf
      split <;> omega

lemma waitCount_eq (totalIters : Nat) :
    ∀ (k i : Nat), i + k = totalIters → waitCount totalIters k i = k - 1 := by
  intro k
  induction k with
  | zero => intro i _; simp [waitCount]
  | succ k ih =>
      intro i hik
      simp only [waitCount]
      rcases Nat.eq_zero_or_pos k with hk | hk
      · subst hk
        have : ¬ (i + 1 < totalIters) := by omega
        simp [this, waitCount]
      · have h1 : i + 1 < totalIters := by omega
        rw [ih (i + 1) (by omega)]
        simp [h1]
        omega

lemma callN_trace (tm : TimerModel) :
    ∀ (n : Nat) (s : BState),
      (Timer.callN tm n s).trace = s.trace ++ List.replicate n Event.callF := by
  intro n
  induction n with
  | zero => intro s; simp [Timer.callN]
  | succ n ih =>
      intro s
      simp only [Timer.callN]
      rw [ih]
      simp [Timer.callF, List.replicate_succ, List.append_assoc]

lemma callN_calls (tm : TimerModel) :
    ∀ (n : Nat) (s : BState), (Timer.callN tm n s).calls = s.calls + n := by
  intro n
  induction n with
  | zero => intro s; simp [Timer.callN]
  | succ n ih =>
      intro s
      simp only [Timer.callN]
      rw [ih]
      simp [Timer.callF]
      omega

lemma callN_time (tm : TimerModel) :
    ∀ (n : Nat) (s : BState),
      (Timer.callN tm n s).time = s.time + sumD tm.d s.calls n := by
  intro n
  induction n with
  | zero => intro s; simp [Timer.callN, sumD]
  | succ n ih =>
      intro s
      simp only [Timer.callN, sumD]
      rw [ih]
      simp [Timer.callF]
      omega

lemma measure_snd_trace (tm : TimerModel) (total_iters : Nat) (s : BState) :
    (BenchRunner.measure tm total_iters s).2.trace =
      s.trace ++ List.replicate total_iters Event.callF := by
  simp only [BenchRunner.measure]
  exact callN_trace tm total_iters s

lemma pifw_snd_trace (tm : TimerModel) (benchId : String) (totalIters : Nat) (s : BState) :
    (BenchRunner.measure_per_iteration_with_frame_wait tm benchId totalIters s).2.trace =
      s.trace ++ pifwTrace benchId (decide (totalIters ≤ MAX_MARKED_ITERS)) totalIters totalIters 0 := by
  simp only [BenchRunner.measure_per_iteration_with_frame_wait]
  rw [show pifwLoop tm benchId (decide (totalIters ≤ MAX_MARKED_ITERS)) totalIters totalIters 0 (0, s) =
    ((pifwLoop tm benchId (decide (totalIters ≤ MAX_MARKED_ITERS)) totalIters totalIters 0 (0, s)).1,
     (pifwLoop tm benchId (decide (totalIters ≤ MAX_MARKED_ITERS)) totalIters totalIters 0 (0, s)).2) from rfl]
  exact pifwLoop_snd_trace tm benchId _ totalIters totalIters 0 0 s

lemma run_with_timer_snd_trace (br : BenchRunner) (tm : TimerModel) (id : String)
    (per_iteration : Bool) (s : BState) :
    (br.run_with_timer tm id per_iteration s).2.trace =
      s.trace ++ runEvents id br.warmup br.iterations per_iteration := by
  simp only [BenchRunner.run_with_timer, runEvents]
  cases per_iteration with
  | false =>
      simp only [Bool.false_eq_true, if_false]
      rw [Timer.measure_span, Timer.mark]
      simp only []
      rw [measure_snd_trace]
      simp only [Timer.mark, Timer.on_calibrated, Timer.measure_span, Timer.clear_marks,
        Timer.clear_measures]
      rw [callN_trace]
      simp [List.append_assoc]
  | true =>
      simp only [if_true]
      rw [Timer.measure_span, Timer.mark]
      simp only []
      rw [pifw_snd_trace]
      simp only [Timer.mark, Timer.on_calibrated, Timer.measure_span, Timer.clear_marks,
        Timer.clear_measures]
      rw [callN_trace]
      simp [List.append_assoc]

lemma pifwEvents_subset_trace (benchId : String) (emit : Bool) (totalIters : Nat) :
    ∀ (k i j : Nat), i ≤ j → j < i + k →
      ∀ e ∈ pifwEvents benchId emit totalIters j, e ∈ pifwTrace benchId emit totalIters k i := by
  intro k
  induction k with
  | zero => intro i j h1 h2; omega
  | succ k ih =>
      intro i j h1 h2 e he
      simp only [pifwTrace, List.mem_append]
      rcases Nat.eq_or_lt_of_le h1 with rfl | hlt
      · exact Or.inl he
      · exact Or.inr (ih (i + 1) j hlt (by omega) e he)

lemma mark_mem_pifwEvents_start (benchId : String) (totalIters i : Nat) :
    Event.mark (iterStartName benchId i) ∈ pifwEvents benchId true totalIters i := by
  simp [pifwEvents]

lemma mark_mem_pifwEvents_end (benchId : String) (totalIters i : Nat) :
    Event.mark (iterEndName benchId i) ∈ pifwEvents benchId true totalIters i := by
  simp [pifwEvents]

lemma span_mem_pifwEvents (benchId : String) (totalIters i : Nat) :
    Event.measureSpan (iterSpanName benchId i) (iterStartName benchId i) (iterEndName benchId i)
      ∈ pifwEvents benchId true totalIters i := by
  simp [pifwEvents]

lemma pifwTrace_no_instr (benchId : String) (totalIters : Nat) :
    ∀ (k i : Nat), ∀ e ∈ pifwTrace benchId false totalIters k i,
      e = Event.callF ∨ e = Event.waitOneFrame := by
  intro k
  induction k with
  | zero => intro i e he; simp [pifwTrace] at he
  | succ k ih =>
      intro i e he
      simp only [pifwTrace, List.mem_append] at he
      rcases he with he | he
      · simp only [pifwEvents, Bool.false_eq_true, if_false, List.nil_append,
          List.append_nil, List.mem_append, List.mem_singleton] at he
        rcases he with he | he
        · exact Or.inl he
        · split at he
          · simp only [List.mem_singleton] at he; exact Or.inr he
          · simp at he
      · exact ih (i + 1) e he

lemma pifwTrace_count_callF (benchId : String) (emit : Bool) (totalIters : Nat) :
    ∀ (k i : Nat), (pifwTrace benchId emit totalIters k i).count Event.callF = k := by
  intro k
  induction k with
  | zero => intro i; simp [pifwTrace]
  | succ k ih =>
      intro i
      simp only [pifwTrace, List.count_append, ih]
      have : (pifwEvents benchId emit totalIters i).count Event.callF = 1 := by
        simp only [pifwEvents]
        cases emit <;>
          simp [List.count_append, List.count_cons, List.count_nil,
            apply_ite (List.count Event.callF)]
      omega

lemma pifwTrace_count_wait (benchId : String) (emit : Bool) (totalIters : Nat) :
    ∀ (k i : Nat),
      (pifwTrace benchId emit totalIters k i).count Event.waitOneFrame =
        waitCount totalIters k i := by
  intro k
  induction k with
  | zero => intro i; simp [pifwTrace, waitCount]
  | succ k ih =>
      intro i
      simp only [pifwTrace, waitCount, List.count_append, ih]
      have : (pifwEvents benchId emit totalIters i).count Event.waitOneFrame =
          (if i + 1 < totalIters then 1 else 0) := by
        simp only [pifwEvents]
        cases emit <;>
          simp [List.count_append, List.count_cons, List.count_nil,
            apply_ite (List.count Event.waitOneFrame)]
      omega

lemma pifwTrace_filter_cw (benchId : String) (emit : Bool) (totalIters : Nat) :
    ∀ (k i : Nat), i + k = totalIters →
      (pifwTrace benchId emit totalIters k i).filter isCW = cwChain k := by
  intro k
  induction k with
  | zero => intro i _; simp [pifwTrace, cwChain]
  | succ k ih =>
      intro i hik
      have hev : (pifwEvents benchId emit totalIters i).filter isCW =
          Event.callF :: (if i + 1 < totalIters then [Event.waitOneFrame] else []) := by
        simp only [pifwEvents]
        cases emit <;> split <;> simp [isCW, List.filter_append]
      simp only [pifwTrace, List.filter_append, hev]
      rcases Nat.eq_zero_or_pos k with hk | hk
      · subst hk
        have : ¬ (i + 1 < totalIters) := by omega
        simp [this, pifwTrace, cwChain, cwRest]
      · obtain ⟨k', rfl⟩ : ∃ k', k = k' + 1 := ⟨k - 1, by omega⟩
        have h1 : i + 1 < totalIters := by omega
        rw [ih (i + 1) (by omega)]
        simp [h1, cwChain, cwRest]

/-- C1: in `measure_per_iteration_with_frame_wait`, for every iteration count
N, per-iteration instrumentation (a start mark and an end mark per iteration,
plus a measure span) is emitted for every iteration when `N ≤ 10_000`, and no
mark or measure-span event at all is emitted when `N > 10_000`. -/
theorem C1_per_iteration_mark_threshold (tm : TimerModel) (benchId : String) (N : Nat) :
    (N ≤ 10000 →
      ∀ i < N,
        Event.mark (iterStartName benchId i) ∈
            (BenchRunner.measure_per_iteration_with_frame_wait tm benchId N BState.init).2.trace ∧
          Event.mark (iterEndName benchId i) ∈
            (BenchRunner.measure_per_iteration_with_frame_wait tm benchId N BState.init).2.trace ∧
          Event.measureSpan (iterSpanName benchId i) (iterStartName benchId i)
              (iterEndName benchId i) ∈
            (BenchRunner.measure_per_iteration_with_frame_wait tm benchId N BState.init).2.trace) ∧
    (10000 < N →
      ∀ e ∈ (BenchRunner.measure_per_iteration_with_frame_wait tm benchId N BState.init).2.trace,
        (∀ nm, e ≠ Event.mark nm) ∧
          (∀ nm sm em, e ≠ Event.measureSpan nm sm em)) := by
  have htr := pifw_snd_trace tm benchId N BState.init
  rw [show BState.init.trace = ([] : List Event) from rfl, List.nil_append] at htr
  constructor
  · intro hN i hi
    have hdec : decide (N ≤ MAX_MARKED_ITERS) = true := by
      simp [MAX_MARKED_ITERS]; omega
    rw [htr, hdec]
    refine ⟨?_, ?_, ?_⟩
    · exact pifwEvents_subset_trace benchId true N N 0 i (Nat.zero_le i) (by omega) _
        (mark_mem_pifwEvents_start benchId N i)
    · exact pifwEvents_subset_trace benchId true N N 0 i (Nat.zero_le i) (by omega) _
        (mark_mem_pifwEvents_end benchId N i)
    · exact pifwEvents_subset_trace benchId true N N 0 i (Nat.zero_le i) (by omega) _
        (span_mem_pifwEvents benchId N i)
  · intro hN e he
    have hdec : decide (N ≤ MAX_MARKED_ITERS) = false := by
      simp [MAX_MARKED_ITERS]; omega
    rw [htr, hdec] at he
    rcases pifwTrace_no_instr benchId N N 0 e he with rfl | rfl
    · exact ⟨fun nm => by simp, fun nm sm em => by simp⟩
    · exact ⟨fun nm => by simp, fun nm sm em => by simp⟩

/-- Witness for C1 at concrete iteration counts 2 and 10001. -/
theorem C1_per_iteration_mark_threshold_witness :
    (Event.mark (iterStartName "w" 0) ∈
        (BenchRunner.measure_per_iteration_with_frame_wait ⟨fun _ => 1, 16⟩ "w" 2
          BState.init).2.trace ∧
      Event.mark (iterEndName "w" 0) ∈
        (BenchRunner.measure_per_iteration_with_frame_wait ⟨fun _ => 1, 16⟩ "w" 2
          BState.init).2.trace ∧
      Event.measureSpan (iterSpanName "w" 0) (iterStartName "w" 0) (iterEndName "w" 0) ∈
        (BenchRunner.measure_per_iteration_with_frame_wait ⟨fun _ => 1, 16⟩ "w" 2
          BState.init).2.trace) ∧
    (∀ e ∈ (BenchRunner.measure_per_iteration_with_frame_wait ⟨fun _ => 1, 16⟩ "w" 10001
        BState.init).2.trace,
      (∀ nm, e ≠ Event.mark nm) ∧ (∀ nm sm em, e ≠ Event.measureSpan nm sm em)) :=
  ⟨(C1_per_iteration_mark_threshold ⟨fun _ => 1, 16⟩ "w" 2).1 (by decide) 0 (by decide),
   (C1_per_iteration_mark_threshold ⟨fun _ => 1, 16⟩ "w" 10001).2 (by decide)⟩

/-- C2: the elapsed time handed to `Statistics::from_measurement` excludes
every frame-wait pause.  In per-iteration mode it is the sum of the
individually timed closure durations (the wall clock additionally advances by
`p * (N - 1)` of untimed waiting); in bulk mode it is the single span covering
the whole loop, paired with the iteration count. -/
theorem C2_statistics_exclude_frame_waits (tm : TimerModel) (benchId : String) (N : Nat) :
    (BenchRunner.measure_per_iteration_with_frame_wait tm benchId N BState.init).1 =
        Statistics.from_measurement (sumD tm.d 0 N) N ∧
      (BenchRunner.measure_per_iteration_with_frame_wait tm benchId N BState.init).2.time =
        sumD tm.d 0 N + tm.p * (N - 1) ∧
      (BenchRunner.measure tm N BState.init).1 =
        Statistics.from_measurement
          ((BenchRunner.measure tm N BState.init).2.time - BState.init.time) N ∧
      (BenchRunner.measure tm N BState.init).1 =
        Statistics.from_measurement (sumD tm.d 0 N) N := by
  refine ⟨?_, ?_, ?_, ?_⟩
  · simp only [BenchRunner.measure_per_iteration_with_frame_wait]
    rw [pifwLoop_fst]
    simp [BState.init]
  · simp only [BenchRunner.measure_per_iteration_with_frame_wait]
    rw [pifwLoop_snd_time, waitCount_eq N N 0 (by omega)]
    simp [BState.init]
  · simp only [BenchRunner.measure]
  · simp only [BenchRunner.measure]
    rw [callN_time]
    simp [BState.init]

/-- C3: in per-iteration mode with N measured iterations, `wait_one_frame`
runs exactly N-1 times, and the call/wait skeleton of the trace is a closure
call followed by alternating (wait, call) pairs — so every wait is strictly
between two consecutive measured iterations, never before the first nor after
the last. -/
theorem C3_frame_waits_between_iterations (tm : TimerModel) (benchId : String) (N : Nat) :
    (BenchRunner.measure_per_iteration_with_frame_wait tm benchId N
          BState.init).2.trace.count Event.waitOneFrame = N - 1 ∧
      (BenchRunner.measure_per_iteration_with_frame_wait tm benchId N
          BState.init).2.trace.filter isCW = cwChain N := by
  have htr := pifw_snd_trace tm benchId N BState.init
  rw [show BState.init.trace = ([] : List Event) from rfl, List.nil_append] at htr
  rw [htr]
  constructor
  · rw [pifwTrace_count_wait, waitCount_eq N N 0 (by omega)]
  · exact pifwTrace_filter_cw benchId _ N N 0 (by omega)

lemma pifwTrace_count_calibrated (benchId : String) (emit : Bool) (totalIters : Nat) :
    ∀ (k i : Nat), (pifwTrace benchId emit totalIters k i).count Event.calibrated = 0 := by
  intro k
  induction k with
  | zero => intro i; simp [pifwTrace]
  | succ k ih =>
      intro i
      simp only [pifwTrace, List.count_append, ih]
      have : (pifwEvents benchId emit totalIters i).count Event.calibrated = 0 := by
        simp only [pifwEvents]
        cases emit <;>
          simp [List.count_append, List.count_cons, List.count_nil,
            apply_ite (List.count Event.calibrated)]
      omega

lemma run_trace_init (br : BenchRunner) (tm : TimerModel) (id : String)
    (per_iteration : Bool) :
    (br.run_with_timer tm id per_iteration BState.init).2.trace =
      runEvents id br.warmup br.iterations per_iteration := by
  have h := run_with_timer_snd_trace br tm id per_iteration BState.init
  rwa [show BState.init.trace = ([] : List Event) from rfl, List.nil_append] at h

/-- C4: every benchmark run first clears stale marks and measures, invokes the
closure exactly `warmup` times, then the calibration callback exactly once,
then the measured iterations: the closure runs `warmup + iterations` times in
total, and the trace splits around the single `calibrated` event with all
`warmup` closure calls before it and all `iterations` measured calls after
it. -/
theorem C4_warmup_calibration_measurement_order (br : BenchRunner) (tm : TimerModel)
    (id : String) (per_iteration : Bool) :
    (br.run_with_timer tm id per_iteration BState.init).2.trace.take 2 =
        [Event.clearMarks, Event.clearMeasures] ∧
      (br.run_with_timer tm id per_iteration BState.init).2.trace.count Event.callF =
        br.warmup + br.iterations ∧
      (br.run_with_timer tm id per_iteration BState.init).2.trace.count Event.calibrated = 1 ∧
      ∃ pre post,
        (br.run_with_timer tm id per_iteration BState.init).2.trace =
            pre ++ Event.calibrated :: post ∧
          pre.count Event.callF = br.warmup ∧
          post.count Event.callF = br.iterations := by
  rw [run_trace_init]
  have hmeas : (if per_iteration then
        pifwTrace id (decide (br.iterations ≤ MAX_MARKED_ITERS)) br.iterations br.iterations 0
      else List.replicate br.iterations Event.callF).count Event.callF = br.iterations := by
    split
    · exact pifwTrace_count_callF id _ br.iterations br.iterations 0
    · simp
  have hcal : (if per_iteration then
        pifwTrace id (decide (br.iterations ≤ MAX_MARKED_ITERS)) br.iterations br.iterations 0
      else List.replicate br.iterations Event.callF).count Event.calibrated = 0 := by
    split
    · exact pifwTrace_count_calibrated id _ br.iterations br.iterations 0
    · simp [List.count_replicate]
  refine ⟨rfl, ?_, ?_, ?_⟩
  · simp only [runEvents, List.count_append, hmeas]
    simp [List.count_cons, List.count_nil]
  · simp only [runEvents, List.count_append, hcal]
    simp [List.count_cons, List.count_nil, List.count_replicate]
  · refine ⟨[Event.clearMarks, Event.clearMeasures, Event.mark (warmupStartName id)]
        ++ List.replicate br.warmup Event.callF
        ++ [Event.mark (warmupEndName id),
            Event.measureSpan (warmupSpanName id) (warmupStartName id) (warmupEndName id)],
      Event.mark (measureStartName id) ::
        ((if per_iteration then
            pifwTrace id (decide (br.iterations ≤ MAX_MARKED_ITERS)) br.iterations
              br.iterations 0
          else List.replicate br.iterations Event.callF)
          ++ [Event.mark (measureEndName id),
              Event.measureSpan (measurementSpanName id) (measureStartName id)
                (measureEndName id)]), ?_, ?_, ?_⟩
    · simp [runEvents]
    · simp [List.count_append, List.count_cons, List.count_nil]
    · simp only [List.count_cons, List.count_append, hmeas]
      simp [List.count_cons, List.count_nil]

lemma string_append_left_cancel {p x y : String} (h : p ++ x = p ++ y) : x = y := by
  have hd := congrArg String.data h
  rw [String.data_append, String.data_append] at hd
  exact String.ext (List.append_cancel_left hd)

lemma ne_of_data_second {x y : String} {a b c d : Char} {r1 r2 : List Char}
    (hx : x.data = a :: b :: r1) (hy : y.data = c :: d :: r2) (h : b ≠ d) : x ≠ y := by
  intro he
  rw [he, hy] at hx
  injection hx with h1 h2
  injection h2 with h3 h4
  exact h h3.symm

lemma iterStart_suffix_data (i : Nat) :
    (":iter:" ++ toString i).data =
      ':' :: 'i' :: ('t' :: 'e' :: 'r' :: ':' :: (toString i).data) := by
  rw [String.data_append]
  rfl

lemma iterEnd_suffix_data (i : Nat) :
    ((":iter:" ++ toString i) ++ ":end").data =
      ':' :: 'i' :: ('t' :: 'e' :: 'r' :: ':' :: ((toString i).data ++ (":end" : String).data)) := by
  rw [String.data_append, String.data_append]
  simp

lemma iterSpan_suffix_data (i : Nat) :
    (" iter " ++ toString i).data =
      ' ' :: 'i' :: ('t' :: 'e' :: 'r' :: ' ' :: (toString i).data) := by
  rw [String.data_append]
  rfl

lemma iterStartName_ne_phase (id : String) (i : Nat) (sfx : String) {c : Char} {r : List Char}
    (hs : sfx.data = ':' :: c :: r) (hc : c ≠ 'i') :
    iterStartName id i ≠ ("bench:" ++ id) ++ sfx := by
  intro h
  have h2 := string_append_left_cancel h
  exact ne_of_data_second (iterStart_suffix_data i) hs (fun he => hc (he ▸ rfl)) h2

lemma iterEndName_ne_phase (id : String) (i : Nat) (sfx : String) {c : Char} {r : List Char}
    (hs : sfx.data = ':' :: c :: r) (hc : c ≠ 'i') :
    iterEndName id i ≠ ("bench:" ++ id) ++ sfx := by
  intro h
  have h2 := string_append_left_cancel h
  exact ne_of_data_second (iterEnd_suffix_data i) hs (fun he => hc (he ▸ rfl)) h2

lemma iterSpanName_ne_phase (id : String) (i : Nat) (sfx : String) {c : Char} {r : List Char}
    (hs : sfx.data = ' ' :: c :: r) (hc : c ≠ 'i') :
    iterSpanName id i ≠ id ++ sfx := by
  intro h
  have h2 := string_append_left_cancel h
  exact ne_of_data_second (iterSpan_suffix_data i) hs (fun he => hc (he ▸ rfl)) h2

lemma mark_mem_runEvents_bulk {id nm : String} {W N : Nat}
    (h : Event.mark nm ∈ runEvents id W N false) :
    nm = warmupStartName id ∨ nm = warmupEndName id ∨ nm = measureStartName id ∨
      nm = measureEndName id := by
  simp only [runEvents] at h
  simp at h
  tauto

lemma span_mem_runEvents_bulk {id nm sm em : String} {W N : Nat}
    (h : Event.measureSpan nm sm em ∈ runEvents id W N false) :
    nm = warmupSpanName id ∨ nm = measurementSpanName id := by
  simp only [runEvents] at h
  simp at h
  tauto

/-- C10: the bulk measurement path emits no instrumentation at all (its trace
is exactly the closure invocations) for every iteration count, and a full
benchmark run in bulk mode never contains a per-iteration start mark, end
mark, or per-iteration measure span. -/
theorem C10_bulk_mode_no_per_iteration_marks (tm : TimerModel) (br : BenchRunner)
    (id : String) (N : Nat) :
    (BenchRunner.measure tm N BState.init).2.trace = List.replicate N Event.callF ∧
      ∀ i : Nat,
        Event.mark (iterStartName id i) ∉
            (br.run_with_timer tm id false BState.init).2.trace ∧
          Event.mark (iterEndName id i) ∉
            (br.run_with_timer tm id false BState.init).2.trace ∧
          ∀ sm em, Event.measureSpan (iterSpanName id i) sm em ∉
            (br.run_with_timer tm id false BState.init).2.trace := by
  constructor
  · have h := measure_snd_trace tm N BState.init
    rwa [show BState.init.trace = ([] : List Event) from rfl, List.nil_append] at h
  · intro i
    rw [run_trace_init]
    refine ⟨?_, ?_, ?_⟩
    · intro hmem
      rcases mark_mem_runEvents_bulk hmem with h | h | h | h
      · exact iterStartName_ne_phase id i ":warmup:start" rfl (by decide) h
      · exact iterStartName_ne_phase id i ":warmup:end" rfl (by decide) h
      · exact iterStartName_ne_phase id i ":measure:start" rfl (by decide) h
      · exact iterStartName_ne_phase id i ":measure:end" rfl (by decide) h
    · intro hmem
      rcases mark_mem_runEvents_bulk hmem with h | h | h | h
      · exact iterEndName_ne_phase id i ":warmup:start" rfl (by decide) h
      · exact iterEndName_ne_phase id i ":warmup:end" rfl (by decide) h
      · exact iterEndName_ne_phase id i ":measure:start" rfl (by decide) h
      · exact iterEndName_ne_phase id i ":measure:end" rfl (by decide) h
    · intro sm em hmem
      rcases span_mem_runEvents_bulk hmem with h | h
      · exact iterSpanName_ne_phase id i " warm-up" rfl (by decide) h
      · exact iterSpanName_ne_phase id i " measurement" rfl (by decide) h

/-- C5: on both GPU/hybrid adapters — the native wgpu `HybridRenderer` and
the WASM `WebGlHybridRenderer` — `fill_blurred_rounded_rect`,
`push_mask_layer`, `set_mask` and `set_blend_mode` abort (`unimplemented!`)
for every receiver state and every argument value; no input makes them
succeed or return a recoverable value. -/
theorem C5_unimplemented_ops_always_abort (r : HybridRenderer) (w : WebGlHybridRenderer)
    (rect : KRect) (radius std_dev : Float) (m : Mask) (b : BlendMode) :
    r.fill_blurred_rounded_rect rect radius std_dev = none ∧
      r.push_mask_layer m = none ∧
      r.set_mask m = none ∧
      r.set_blend_mode b = none ∧
      w.fill_blurred_rounded_rect rect radius std_dev = none ∧
      w.push_mask_layer m = none ∧
      w.set_mask m = none ∧
      w.set_blend_mode b = none :=
  ⟨rfl, rfl, rfl, rfl, rfl, rfl, rfl, rfl⟩

/-- C6: `HybridRenderer::new` panics (fail-fast) whenever `num_threads ≠ 0`,
and with `num_threads = 0` it yields a renderer whose `width()` and
`height()` are exactly the constructor arguments. -/
theorem C6_hybrid_new_thread_check_and_size (width height num_threads : Nat) :
    (num_threads ≠ 0 → HybridRenderer.new width height num_threads = none) ∧
      ∃ r, HybridRenderer.new width height 0 = some r ∧
        r.width = width ∧ r.height = height := by
  constructor
  · intro h
    simp [HybridRenderer.new, h]
  · refine ⟨⟨Scene.new width height⟩, ?_, rfl, rfl⟩
    simp [HybridRenderer.new]

/-- Witness for C6 at `800 x 600` with 3 threads (abort) and 0 threads. -/
theorem C6_hybrid_new_thread_check_and_size_witness :
    HybridRenderer.new 800 600 3 = none ∧
      ∃ r, HybridRenderer.new 800 600 0 = some r ∧ r.width = 800 ∧ r.height = 600 :=
  ⟨(C6_hybrid_new_thread_check_and_size 800 600 3).1 (by decide),
   (C6_hybrid_new_thread_check_and_size 800 600 3).2⟩

lemma setup_scene_isSome_of_registered :
    ∀ s ∈ get_vello_scenes, (setup_scene s.name).isSome := by decide

/-- C7: for the benchmark category entry points (`vello_cpu`, and `scene_cpu`
for every runtime scene table), `run(name)` returns the absent result `None`
(never via a panic) exactly when `name` is not in that category's registry;
in particular every name produced by that category's `list()` is found by
`run` — `vello_cpu::run` then also finds the scene again in `setup_scene` and
cannot panic at all. -/
theorem C7_run_none_iff_unregistered (scenes : List SceneItem) (name : String) :
    (vello_cpu_run name = Except.ok none ↔ ∀ s ∈ get_vello_scenes, s.name ≠ name) ∧
      (∀ info ∈ vello_cpu_list,
        vello_cpu_run info.name ≠ Except.ok none ∧
          (setup_scene info.name).isSome ∧
          ∀ msg, vello_cpu_run info.name ≠ Except.error msg) ∧
      (scene_cpu_run scenes name = Except.ok none ↔ ∀ s ∈ scenes, s.name ≠ name) ∧
      (∀ info ∈ scene_cpu_list scenes,
        (scenes.find? (fun s => s.name == info.name)).isSome ∧
          scene_cpu_run scenes info.name ≠ Except.ok none) := by
  have hvc : ∀ nm : String, (∃ s ∈ get_vello_scenes, s.name = nm) →
      ∃ out, vello_cpu_run nm = Except.ok (some out) := by
    intro nm ⟨s, hs, hname⟩
    have hfind : (get_vello_scenes.find? (fun t => t.name == nm)).isSome :=
      List.find?_isSome.mpr ⟨s, hs, by simp [hname]⟩
    obtain ⟨info, hinfo⟩ := Option.isSome_iff_exists.mp hfind
    have hmem := List.mem_of_find?_eq_some hinfo
    have heq : info.name = nm := by
      have := List.find?_some hinfo
      simpa using this
    have hsetup : (setup_scene nm).isSome := by
      rw [← heq]
      exact setup_scene_isSome_of_registered info hmem
    obtain ⟨st, hst⟩ := Option.isSome_iff_exists.mp hsetup
    refine ⟨(vello_cpu_CATEGORY ++ "/") ++ nm, ?_⟩
    simp only [vello_cpu_run, hinfo, hst]
  refine ⟨?_, ?_, ?_, ?_⟩
  · constructor
    · intro h s hs hname
      obtain ⟨out, hout⟩ := hvc s.name ⟨s, hs, rfl⟩
      rw [hname] at hout
      rw [hout] at h
      simp at h
    · intro h
      have hfind : get_vello_scenes.find? (fun t => t.name == name) = none :=
        List.find?_eq_none.mpr (fun s hs => by simpa using h s hs)
      simp only [vello_cpu_run, hfind]
  · intro info hinfo
    simp only [vello_cpu_list, List.mem_map] at hinfo
    obtain ⟨scene, hscene, rfl⟩ := hinfo
    obtain ⟨out, hout⟩ := hvc scene.name ⟨scene, hscene, rfl⟩
    exact ⟨by simp [hout], setup_scene_isSome_of_registered scene hscene,
      fun msg => by simp [hout]⟩
  · constructor
    · intro h s hs hname
      have hfind : (scenes.find? (fun t => t.name == name)).isSome :=
        List.find?_isSome.mpr ⟨s, hs, by simp [hname]⟩
      obtain ⟨item, hitem⟩ := Option.isSome_iff_exists.mp hfind
      simp only [scene_cpu_run, hitem] at h
      split at h <;> simp at h
    · intro h
      have hfind : scenes.find? (fun t => t.name == name) = none :=
        List.find?_eq_none.mpr (fun s hs => by simpa using h s hs)
      simp only [scene_cpu_run, hfind]
  · intro info hinfo
    simp only [scene_cpu_list, List.mem_map] at hinfo
    obtain ⟨item, hitem, rfl⟩ := hinfo
    have hfind : (scenes.find? (fun t => t.name == item.name)).isSome :=
      List.find?_isSome.mpr ⟨item, hitem, by simp⟩
    refine ⟨hfind, ?_⟩
    obtain ⟨found, hfound⟩ := Option.isSome_iff_exists.mp hfind
    simp only [scene_cpu_run, hfound]
    split <;> simp

/-- Witness for C7: an unregistered name yields the absent result, and the
listed scene `filled_rects` is found by both lookups. -/
theorem C7_run_none_iff_unregistered_witness :
    vello_cpu_run "no_such_scene" = Except.ok none ∧
      (vello_cpu_run "filled_rects" ≠ Except.ok none ∧
        (setup_scene "filled_rects").isSome ∧
        ∀ msg, vello_cpu_run "filled_rects" ≠ Except.error msg) ∧
      scene_cpu_run [⟨"demo", true, 1024, 768⟩] "absent" = Except.ok none :=
  ⟨(C7_run_none_iff_unregistered [] "no_such_scene").1.mpr (by decide),
   (C7_run_none_iff_unregistered [] "x").2.1
     ⟨(vello_cpu_CATEGORY ++ "/") ++ "filled_rects", vello_cpu_CATEGORY, "filled_rects"⟩
     (by decide),
   (C7_run_none_iff_unregistered [⟨"demo", true, 1024, 768⟩] "absent").2.2.1.mpr
     (by decide)⟩

lemma countPush_nil : countPush [] = 0 := rfl

lemma countPop_nil : countPop [] = 0 := rfl

lemma countPush_cons (c : RCmd) (l : List RCmd) :
    countPush (c :: l) = (if isPush c then 1 else 0) + countPush l := by
  simp only [countPush, List.filter_cons]
  split <;> simp [Nat.add_comm]

lemma countPop_cons (c : RCmd) (l : List RCmd) :
    countPop (c :: l) = (if isPop c then 1 else 0) + countPop l := by
  simp only [countPop, List.filter_cons]
  split <;> simp [Nat.add_comm]

lemma countPush_append (a b : List RCmd) :
    countPush (a ++ b) = countPush a + countPush b := by
  simp [countPush, List.filter_append]

lemma countPop_append (a b : List RCmd) :
    countPop (a ++ b) = countPop a + countPop b := by
  simp [countPop, List.filter_append]

lemma isPush_eq_false_of_isPop {c : RCmd} (h : isPop c = true) : isPush c = false := by
  cases c <;> simp_all [isPop, isPush]

lemma depthOk_take_bound :
    ∀ (l : List RCmd) (dep : Nat), depthOk l dep = true →
      ∀ n, countPop (l.take n) ≤ dep + countPush (l.take n) := by
  intro l
  induction l with
  | nil => intro dep _ n; simp [countPop_nil, countPush_nil]
  | cons c rest ih =>
      intro dep h n
      cases n with
      | zero => simp [countPop_nil, countPush_nil]
      | succ n =>
          simp only [List.take_succ_cons, countPop_cons, countPush_cons]
          rcases hpop : isPop c with _ | _
          · simp only [depthOk, hpop] at h
            have hb := ih (dep + (if isPush c then 1 else 0)) h n
            simp only [hpop, Bool.false_eq_true, if_false]
            omega
          · have hpush := isPush_eq_false_of_isPop hpop
            simp only [depthOk, hpop] at h
            cases dep with
            | zero => simp at h
            | succ d =>
                have := ih d h n
                simp [hpush, hpop]
                omega

lemma layerBalanced_of_checks (l : List RCmd) (h1 : depthOk l 0 = true)
    (h2 : countPush l = countPop l) : LayerBalanced l := by
  refine ⟨h2, fun n => ?_⟩
  have := depthOk_take_bound l 0 h1 n
  omega

lemma layerBalanced_append {a b : List RCmd} (ha : LayerBalanced a) (hb : LayerBalanced b) :
    LayerBalanced (a ++ b) := by
  refine ⟨by simp [countPush_append, countPop_append, ha.1, hb.1], fun n => ?_⟩
  rw [List.take_append_eq_append_take, countPush_append, countPop_append]
  have h1 := ha.2 n
  have h2 := hb.2 (n - a.length)
  omega

lemma layerBalanced_nil : LayerBalanced [] :=
  layerBalanced_of_checks [] (by decide) (by decide)

lemma layerBalanced_flatten :
    ∀ (L : List (List RCmd)), (∀ x ∈ L, LayerBalanced x) → LayerBalanced L.flatten := by
  intro L
  induction L with
  | nil => intro _; simpa using layerBalanced_nil
  | cons x L ih =>
      intro h
      rw [List.flatten_cons]
      exact layerBalanced_append (h x (by simp)) (ih fun y hy => h y (by simp [hy]))

lemma bal_filledRectsLoop : ∀ n, LayerBalanced (filledRectsLoop n) := by
  intro n
  induction n with
  | zero => exact layerBalanced_nil
  | succ n ih =>
      exact layerBalanced_append (layerBalanced_of_checks _ (by decide) (by decide)) ih

lemma bal_tiledFlowersLoop (count : Nat) :
    ∀ cells n, LayerBalanced (tiledFlowersLoop count cells n) := by
  intro cells
  induction cells with
  | zero =>
      intro n
      show LayerBalanced [RCmd.setTransform]
      exact layerBalanced_of_checks _ (by decide) (by decide)
  | succ cells ih =>
      intro n
      simp only [tiledFlowersLoop]
      split
      · exact layerBalanced_of_checks _ (by decide) (by decide)
      · exact layerBalanced_append (layerBalanced_of_checks _ (by decide) (by decide)) (ih (n + 1))

lemma bal_overlappingLoop : ∀ n, LayerBalanced (overlappingLoop n) := by
  intro n
  induction n with
  | zero => exact layerBalanced_nil
  | succ n ih =>
      exact layerBalanced_append (layerBalanced_of_checks _ (by decide) (by decide)) ih

lemma bal_largeOverlappingLoop : ∀ n, LayerBalanced (largeOverlappingLoop n) := by
  intro n
  induction n with
  | zero => exact layerBalanced_nil
  | succ n ih =>
      exact layerBalanced_append (layerBalanced_of_checks _ (by decide) (by decide)) ih

lemma bal_clippedCardsLoop (count : Nat) :
    ∀ cells n, LayerBalanced (clippedCardsLoop count cells n) := by
  intro cells
  induction cells with
  | zero => intro n; exact layerBalanced_nil
  | succ cells ih =>
      intro n
      simp only [clippedCardsLoop]
      split
      · exact layerBalanced_nil
      · exact layerBalanced_append (layerBalanced_of_checks _ (by decide) (by decide)) (ih (n + 1))

lemma bal_rotatedLoop (count : Nat) :
    ∀ cells n, LayerBalanced (rotatedLoop count cells n) := by
  intro cells
  induction cells with
  | zero =>
      intro n
      show LayerBalanced [RCmd.setTransform]
      exact layerBalanced_of_checks _ (by decide) (by decide)
  | succ cells ih =>
      intro n
      simp only [rotatedLoop]
      split
      · exact layerBalanced_of_checks _ (by decide) (by decide)
      · exact layerBalanced_append (layerBalanced_of_checks _ (by decide) (by decide)) (ih (n + 1))

lemma bal_borderCardsLoop (count : Nat) :
    ∀ cells n, LayerBalanced (borderCardsLoop count cells n) := by
  intro cells
  induction cells with
  | zero => intro n; exact layerBalanced_nil
  | succ cells ih =>
      intro n
      simp only [borderCardsLoop]
      split
      · exact layerBalanced_nil
      · exact layerBalanced_append (layerBalanced_of_checks _ (by decide) (by decide)) (ih (n + 1))

lemma bal_mixedLoop (count : Nat) :
    ∀ cells n, LayerBalanced (mixedLoop count cells n) := by
  intro cells
  induction cells with
  | zero => intro n; exact layerBalanced_nil
  | succ cells ih =>
      intro n
      simp only [mixedLoop]
      split
      · exact layerBalanced_nil
      · refine layerBalanced_append ?_ (ih (n + 1))
        split
        · exact layerBalanced_of_checks _ (by decide) (by decide)
        · exact layerBalanced_of_checks _ (by decide) (by decide)

lemma bal_pathCmds (globalIdx : Nat) : LayerBalanced (pathCmds globalIdx) := by
  simp only [pathCmds]
  split
  · exact layerBalanced_of_checks _ (by decide) (by decide)
  · exact layerBalanced_of_checks _ (by decide) (by decide)

lemma bal_pathBatch (iter ppb : Nat) : LayerBalanced (pathBatch iter ppb) := by
  refine layerBalanced_flatten _ ?_
  intro x hx
  simp only [List.mem_map] at hx
  obtain ⟨p, _, rfl⟩ := hx
  exact bal_pathCmds _

lemma bal_draw_paths_and_images (iterations ppb : Nat) :
    LayerBalanced (draw_paths_and_images iterations ppb) := by
  refine layerBalanced_flatten _ ?_
  intro x hx
  simp only [List.mem_map] at hx
  obtain ⟨it, _, rfl⟩ := hx
  exact layerBalanced_append (bal_pathBatch _ _)
    (layerBalanced_of_checks _ (by decide) (by decide))

lemma bal_drawFilledRects : LayerBalanced drawFilledRects :=
  bal_filledRectsLoop (16 * 12)

lemma bal_draw_tiled_flowers (rows cols count : Nat) :
    LayerBalanced (draw_tiled_flowers rows cols count) :=
  bal_tiledFlowersLoop count (rows * cols) 0

lemma bal_draw_overlapping_images (count : Nat) :
    LayerBalanced (draw_overlapping_images count) :=
  layerBalanced_append (bal_overlappingLoop count)
    (layerBalanced_of_checks _ (by decide) (by decide))

lemma bal_draw_clipped_image_cards (cols count : Nat) :
    LayerBalanced (draw_clipped_image_cards cols count) :=
  bal_clippedCardsLoop count (((count + cols - 1) / cols) * cols) 0

lemma bal_draw_large_overlapping_images (count : Nat) :
    LayerBalanced (draw_large_overlapping_images count) :=
  layerBalanced_append (bal_largeOverlappingLoop count)
    (layerBalanced_of_checks _ (by decide) (by decide))

lemma bal_draw_rotated_images (cols count : Nat) :
    LayerBalanced (draw_rotated_images cols count) :=
  bal_rotatedLoop count (((count + cols - 1) / cols) * cols) 0

lemma bal_draw_image_cards_with_borders (cols count : Nat) :
    LayerBalanced (draw_image_cards_with_borders cols count) :=
  bal_borderCardsLoop count (((count + cols - 1) / cols) * cols) 0

lemma bal_draw_mixed_image_and_vector (cols count : Nat) :
    LayerBalanced (draw_mixed_image_and_vector cols count) :=
  bal_mixedLoop count (((count + cols - 1) / cols) * cols) 0

/-- C9: for every scene registered in the programmatic scene table and every
grid-shape oracle (hence every renderer backend and canvas size, since the
emitted trait-call sequence depends on the backend only through these
float-derived values), one `draw_scene` call issues equally many layer pushes
(`push_clip_layer`/`push_layer`) and `pop_layer`s, and every prefix of the
command sequence has at least as many pushes as pops — early-return paths
included. -/
theorem C9_draw_scene_layer_balance (gp : GridParams) (info : VelloSceneInfo)
    (h : info ∈ get_vello_scenes) :
    ∃ l, draw_scene gp info.name = some l ∧ countPush l = countPop l ∧
      ∀ n, countPop (l.take n) ≤ countPush (l.take n) := by
  fin_cases h
  · exact ⟨_, rfl, bal_drawFilledRects.1, bal_drawFilledRects.2⟩
  · exact ⟨_, rfl, (bal_draw_tiled_flowers gp.rows gp.cols 100).1,
      (bal_draw_tiled_flowers gp.rows gp.cols 100).2⟩
  · exact ⟨_, rfl, (bal_draw_tiled_flowers gp.rows gp.cols 300).1,
      (bal_draw_tiled_flowers gp.rows gp.cols 300).2⟩
  · exact ⟨_, rfl, (bal_draw_tiled_flowers gp.rows gp.cols 1000).1,
      (bal_draw_tiled_flowers gp.rows gp.cols 1000).2⟩
  · exact ⟨_, rfl, (bal_draw_tiled_flowers gp.rows gp.cols 10000).1,
      (bal_draw_tiled_flowers gp.rows gp.cols 10000).2⟩
  · exact ⟨_, rfl, (bal_draw_overlapping_images 100).1, (bal_draw_overlapping_images 100).2⟩
  · exact ⟨_, rfl, (bal_draw_overlapping_images 1000).1, (bal_draw_overlapping_images 1000).2⟩
  · exact ⟨_, rfl, (bal_draw_overlapping_images 10000).1, (bal_draw_overlapping_images 10000).2⟩
  · exact ⟨_, rfl, (bal_draw_clipped_image_cards gp.cols 100).1,
      (bal_draw_clipped_image_cards gp.cols 100).2⟩
  · exact ⟨_, rfl, (bal_draw_clipped_image_cards gp.cols 1000).1,
      (bal_draw_clipped_image_cards gp.cols 1000).2⟩
  · exact ⟨_, rfl, (bal_draw_clipped_image_cards gp.cols 10000).1,
      (bal_draw_clipped_image_cards gp.cols 10000).2⟩
  · exact ⟨_, rfl, (bal_draw_large_overlapping_images 100).1,
      (bal_draw_large_overlapping_images 100).2⟩
  · exact ⟨_, rfl, (bal_draw_large_overlapping_images 1000).1,
      (bal_draw_large_overlapping_images 1000).2⟩
  · exact ⟨_, rfl, (bal_draw_large_overlapping_images 10000).1,
      (bal_draw_large_overlapping_images 10000).2⟩
  · exact ⟨_, rfl, (bal_draw_rotated_images gp.cols 100).1,
      (bal_draw_rotated_images gp.cols 100).2⟩
  · exact ⟨_, rfl, (bal_draw_rotated_images gp.cols 1000).1,
      (bal_draw_rotated_images gp.cols 1000).2⟩
  · exact ⟨_, rfl, (bal_draw_rotated_images gp.cols 10000).1,
      (bal_draw_rotated_images gp.cols 10000).2⟩
  · exact ⟨_, rfl, (bal_draw_image_cards_with_borders gp.cols 100).1,
      (bal_draw_image_cards_with_borders gp.cols 100).2⟩
  · exact ⟨_, rfl, (bal_draw_image_cards_with_borders gp.cols 1000).1,
      (bal_draw_image_cards_with_borders gp.cols 1000).2⟩
  · exact ⟨_, rfl, (bal_draw_image_cards_with_borders gp.cols 10000).1,
      (bal_draw_image_cards_with_borders gp.cols 10000).2⟩
  · exact ⟨_, rfl, (bal_draw_mixed_image_and_vector gp.cols 100).1,
      (bal_draw_mixed_image_and_vector gp.cols 100).2⟩
  · exact ⟨_, rfl, (bal_draw_mixed_image_and_vector gp.cols 1000).1,
      (bal_draw_mixed_image_and_vector gp.cols 1000).2⟩
  · exact ⟨_, rfl, (bal_draw_mixed_image_and_vector gp.cols 10000).1,
      (bal_draw_mixed_image_and_vector gp.cols 10000).2⟩
  · exact ⟨_, rfl, (bal_draw_paths_and_images 10 100).1, (bal_draw_paths_and_images 10 100).2⟩

/-- Witness for C9 at the clipped-card scene with an arbitrary concrete grid
shape. -/
theorem C9_draw_scene_layer_balance_witness :
    ∃ l, draw_scene ⟨5, 7⟩ (VelloSceneInfo.mk "clipped_image_cards_100" 1920 1080).name =
        some l ∧ countPush l = countPop l ∧
        ∀ n, countPop (l.take n) ≤ countPush (l.take n) :=
  C9_draw_scene_layer_balance ⟨5, 7⟩ ⟨"clipped_image_cards_100", 1920, 1080⟩ (by decide)

lemma align_to_256_eq (v : Nat) (hv : v ≤ 262140) :
    align_to v 256 = (v + 255) / 256 * 256 := by
  simp only [align_to, U32_MOD]
  omega

lemma next_multiple_of_256_eq (v : Nat) (hv : v ≤ 262140) :
    next_multiple_of v 256 = some ((v + 255) / 256 * 256) := by
  rw [next_multiple_of, if_neg (by decide : ¬ (256 = 0))]
  simp only [U32_MOD]
  split_ifs
  all_goals first
    | (rw [Option.some.injEq]; omega)
    | (exfalso; omega)

lemma chunksExact_eq_map {α : Type} (k : Nat) (hk : 0 < k) :
    ∀ (h : Nat) (data : List α), data.length = k * h →
      chunksExact k data = (List.range h).map fun i => (data.drop (i * k)).take k := by
  intro h
  induction h with
  | zero =>
      intro data hlen
      rw [chunksExact, dif_neg (by omega)]
      simp
  | succ h ih =>
      intro data hlen
      rw [Nat.mul_succ] at hlen
      have hkle : k ≤ data.length := by omega
      rw [chunksExact, dif_pos ⟨hk, hkle⟩]
      have hdrop : (data.drop k).length = k * h := by
        rw [List.length_drop]
        omega
      rw [ih (data.drop k) hdrop]
      rw [List.range_succ_eq_map]
      simp only [List.map_cons, List.map_map]
      congr 1
      · simp
      · refine List.map_congr_left fun i _ => ?_
        simp only [Function.comp_apply]
        rw [List.drop_drop]
        congr 2
        simp [Nat.succ_mul]
        omega

lemma flatten_extract {α : Type} (cLen : Nat) :
    ∀ (L : List (List α)) (i : Nat), (∀ x ∈ L, x.length = cLen) → i < L.length →
      ((L.flatten.drop (i * cLen)).take cLen) = L.getD i [] := by
  intro L
  induction L with
  | nil => intro i _ hi; simp at hi
  | cons x L ih =>
      intro i hlen hi
      cases i with
      | zero =>
          have hx : x.length = cLen := hlen x (by simp)
          simp only [Nat.zero_mul, List.drop_zero, List.flatten_cons, List.getD]
          rw [← hx, List.take_left]
          rfl
      | succ i =>
          simp only [List.flatten_cons]
          have hx : x.length = cLen := hlen x (by simp)
          have hsplit : (i + 1) * cLen = x.length + i * cLen := by rw [hx]; ring
          rw [hsplit, List.drop_append]
          exact ih i (fun y hy => hlen y (by simp [hy])) (by simpa using hi)

lemma foldl_append_eq_flatten {α : Type} (g : Nat → List α) :
    ∀ (l : List Nat) (init : List α),
      l.foldl (fun acc row => acc ++ g row) init = init ++ (l.map g).flatten := by
  intro l
  induction l with
  | nil => intro init; simp
  | cons a l ih =>
      intro init
      simp only [List.foldl_cons, List.map_cons, List.flatten_cons]
      rw [ih]
      simp [List.append_assoc]

lemma intoRgba_eq_flatten (data : List Nat) (h bpr rb : Nat) :
    intoRgbaStripRows data h bpr rb =
      ((List.range h).map fun row => (data.drop (row * bpr)).take rb).flatten := by
  simp only [intoRgbaStripRows]
  rw [foldl_append_eq_flatten]
  simp

lemma renderToPixmapCopy_eq_flatten (mapped pixmapData : List Nat) (bpr rb h : Nat)
    (hbpr : 0 < bpr) (hrb : 0 < rb) (hle : rb ≤ bpr)
    (hm : mapped.length = bpr * h) (hp : pixmapData.length = rb * h) :
    renderToPixmapCopy mapped pixmapData bpr rb =
      ((List.range h).map fun i => (mapped.drop (i * bpr)).take rb).flatten := by
  simp only [renderToPixmapCopy]
  rw [chunksExact_eq_map bpr hbpr h mapped hm, chunksExact_eq_map rb hrb h pixmapData hp]
  rw [List.zip_map']
  rw [List.map_map]
  have hlen : ((List.range h).map fun i =>
      ((mapped.drop (i * bpr)).take bpr, (pixmapData.drop (i * rb)).take rb)).length = h := by
    simp
  rw [hlen]
  rw [List.drop_eq_nil_of_le (by rw [hp, Nat.mul_comm])]
  rw [List.append_nil]
  refine congrArg List.flatten (List.map_congr_left fun i _ => ?_)
  simp only [Function.comp]
  rw [List.take_take, Nat.min_eq_left hle]

lemma flatten_map_row_extract (data : List Nat) (h bpr rb i : Nat) (hle : rb ≤ bpr)
    (hi : i < h) (hlen : data.length = bpr * h) :
    ((((List.range h).map fun row => (data.drop (row * bpr)).take rb).flatten).drop
        (i * rb)).take rb = (data.drop (i * bpr)).take rb := by
  rw [flatten_extract rb _ i ?_ (by simp [hi])]
  · rw [List.getD_eq_getElem _ _ (by simp [hi])]
    simp
  · intro x hx
    simp only [List.mem_map] at hx
    obtain ⟨row, hrow, rfl⟩ := hx
    have hrow2 : row < h := by simpa using hrow
    have hbound : row * bpr + rb ≤ data.length := by
      rw [hlen]
      calc row * bpr + rb ≤ row * bpr + bpr := by omega
        _ = (row + 1) * bpr := by ring
        _ ≤ h * bpr := Nat.mul_le_mul_right bpr (by omega)
        _ = bpr * h := Nat.mul_comm h bpr
    simp only [List.length_take, List.length_drop]
    omega

/-- C8: for every in-range width, the staging-buffer row stride is the
smallest multiple of 256 at least `width * 4`, the `next_multiple_of` form
(renderer.rs) and the `(value + alignment - 1) / alignment * alignment` form
(scene_hybrid.rs `align_to`) agree, and both copy loops give each destination
row exactly the first `width * 4` bytes of its padded source row — the row
padding is stripped. -/
theorem C8_readback_stride_and_padding (w h : Nat) (mapped pixdata : List Nat) (i : Nat)
    (hw : w ≤ 65535)
    (hm : mapped.length = align_to (4 * w) 256 * h)
    (hp : pixdata.length = 4 * w * h)
    (hi : i < h) :
    next_multiple_of (4 * w) 256 = some (align_to (4 * w) 256) ∧
      align_to (4 * w) 256 % 256 = 0 ∧
      4 * w ≤ align_to (4 * w) 256 ∧
      (∀ c, c % 256 = 0 → 4 * w ≤ c → align_to (4 * w) 256 ≤ c) ∧
      ((renderToPixmapCopy mapped pixdata (align_to (4 * w) 256) (4 * w)).drop
          (i * (4 * w))).take (4 * w) =
        (mapped.drop (i * align_to (4 * w) 256)).take (4 * w) ∧
      ((intoRgbaStripRows mapped h (align_to (4 * w) 256) (4 * w)).drop
          (i * (4 * w))).take (4 * w) =
        (mapped.drop (i * align_to (4 * w) 256)).take (4 * w) := by
  have hv : 4 * w ≤ 262140 := by omega
  have halign := align_to_256_eq (4 * w) hv
  refine ⟨?_, ?_, ?_, ?_, ?_, ?_⟩
  · rw [next_multiple_of_256_eq (4 * w) hv, halign]
  · rw [halign]; omega
  · rw [halign]; omega
  · intro c hc hwc
    rw [halign]; omega
  · rcases Nat.eq_zero_or_pos w with rfl | hpos
    · simp
    · have hle : 4 * w ≤ align_to (4 * w) 256 := by rw [halign]; omega
      have hbpr : 0 < align_to (4 * w) 256 := by omega
      rw [renderToPixmapCopy_eq_flatten mapped pixdata (align_to (4 * w) 256) (4 * w) h
        hbpr (by omega) hle hm hp]
      exact flatten_map_row_extract mapped h (align_to (4 * w) 256) (4 * w) i hle hi hm
  · rcases Nat.eq_zero_or_pos w with rfl | hpos
    · simp
    · have hle : 4 * w ≤ align_to (4 * w) 256 := by rw [halign]; omega
      rw [intoRgba_eq_flatten]
      exact flatten_map_row_extract mapped h (align_to (4 * w) 256) (4 * w) i hle hi hm

/-- Witness for C8 at width 1, height 2 (stride 256, rows of 4 bytes). -/
theorem C8_readback_stride_and_padding_witness :
    next_multiple_of (4 * 1) 256 = some (align_to (4 * 1) 256) ∧
      align_to (4 * 1) 256 % 256 = 0 ∧
      4 * 1 ≤ align_to (4 * 1) 256 ∧
      (∀ c, c % 256 = 0 → 4 * 1 ≤ c → align_to (4 * 1) 256 ≤ c) ∧
      ((renderToPixmapCopy (List.replicate 512 7) (List.replicate 8 0)
          (align_to (4 * 1) 256) (4 * 1)).drop (1 * (4 * 1))).take (4 * 1) =
        ((List.replicate 512 7).drop (1 * align_to (4 * 1) 256)).take (4 * 1) ∧
      ((intoRgbaStripRows (List.replicate 512 7) 2 (align_to (4 * 1) 256) (4 * 1)).drop
          (1 * (4 * 1))).take (4 * 1) =
        ((List.replicate 512 7).drop (1 * align_to (4 * 1) 256)).take (4 * 1) :=
  by
  have ha : align_to (4 * 1) 256 = 256 := by
    rw [align_to_256_eq (4 * 1) (by norm_num)]
  exact C8_readback_stride_and_padding 1 2 (List.replicate 512 7) (List.replicate 8 0) 1
    (by norm_num) (by rw [ha, List.length_replicate]) (by rw [List.length_replicate])
    (by norm_num)
